import Mathlib

/-!
Shallow embedding of the FSD message codec in `src/src/messages.rs` of
blip-radar/fsd-interface, together with theorems settling the frozen claims
about its specification.

Conventions of the embedding:
* Rust `&str` becomes `String`; byte slicing of the ASCII marker prefix
  (`&fields[0][3..]`) becomes dropping characters (`strDrop`).
* Rust `f64` fields become `ℚ` with an exact decimal-numeral parser; none of
  the claims depends on binary floating-point rounding.
* Fallible Rust code returns `Outcome`, which distinguishes a returned error
  value (`fails`) from a Rust panic (`panics`, raised by out-of-bounds slice
  indexing `fields[i]`); `fields.get(i)` is the non-panicking `List.get?`.
* Collaborator types that live outside `src/` (enums, structs, util, errors)
  are modelled from the spec; each such definition carries a doc comment
  starting with "Modelled from the spec:".
-/

set_option maxRecDepth 8000

namespace FsdInterface

/-- Modelled from the spec: the error taxonomy of §7 (errors::FsdMessageParseError
lives outside src/); the constructors and their payloads are taken from the
construction sites inside src/src/messages.rs, which are the authority for which
error is signalled where. -/
inductive FsdMessageParseError where
  | invalidFieldCount (expected actual : Nat)
  | unknownMessageType (raw : String)
  | invalidCoordinate (raw : String)
  | invalidAltitude (raw : String)
  | invalidAltitudeDifference (raw : String)
  | invalidSpeed (raw : String)
  | invalidVisRange (raw : String)
  | invalidIndex (raw : String)
  | invalidPitchBankHeading (raw : String)
  | invalidNosewheelAngle (raw : String)
  | invalidPositionVelocity (raw : String)
  | invalidClientID (raw : String)
  | invalidVersionNumber (raw : String)
  | invalidRating (raw : String)
  | invalidATISLine (raw : String)
  | invalidValidAtcStatus (raw : String)
  | invalidIPAddress (raw : String)
  | invalidPort (raw : String)
  | invalidSharedStateType (raw : String)
  | invalidServerError (raw : String)
  | invalidTime (raw : String)
  | invalidAtcType (raw : String)
  | invalidPilotRating (raw : String)
  | invalidProtocolRevision (raw : String)
  | invalidSimulatorType (raw : String)
  | invalidTransponderMode (raw : String)
  | invalidTransponderCode (raw : String)
  | invalidLevel (raw : String)
  | invalidVoiceCapability (raw : String)
  | invalidFrequency (raw : String)
deriving DecidableEq, Repr

/-- Result of running one Rust parse function: success, a returned error value, or
a Rust panic (only ever caused here by an out-of-bounds index `fields[i]`). -/
inductive Outcome (α : Type) where
  | panics
  | fails (e : FsdMessageParseError)
  | ok (a : α)
deriving DecidableEq, Repr

def Outcome.bind {α β : Type} : Outcome α → (α → Outcome β) → Outcome β
  | .panics, _ => .panics
  | .fails e, _ => .fails e
  | .ok a, f => f a

/-- Rust slice indexing `fields[i]`: panics when out of bounds. -/
def index (fields : List String) (i : Nat) : Outcome String :=
  match fields.get? i with
  | some s => Outcome.ok s
  | none => Outcome.panics

/-- Rust `opt.ok_or(e)?` / `res.map_err(|_| e)?` where the error needs no further
slice access: an `Option` result lifted into `Outcome` with the given error. -/
def parsed {α : Type} (o : Option α) (e : FsdMessageParseError) : Outcome α :=
  match o with
  | some a => Outcome.ok a
  | none => Outcome.fails e

/-- Byte slice `s[n..]` on an ASCII marker prefix, modelled as dropping `n`
characters. -/
def strDrop (n : Nat) (s : String) : String := String.mk (s.data.drop n)

/-- Rust `str::to_uppercase`, modelled character-wise (the protocol uses ASCII,
where Unicode and ASCII upper-casing coincide), defined structurally over the
character list so that theorems can evaluate it. -/
def strToUpper (s : String) : String := String.mk (s.data.map Char.toUpper)

/-- Value of a digit list (most significant first); `none` if any non-digit. -/
def digitsVal (l : List Char) : Option Nat :=
  if l.all (·.isDigit) then some (l.foldl (fun acc c => acc * 10 + (c.toNat - 48)) 0)
  else none

/-- Nonempty all-digit list to its value. -/
def parseNatList (l : List Char) : Option Nat :=
  if l.isEmpty then none else digitsVal l

/-- Rust `str::parse` for unsigned integers: optional leading `+`, then digits. -/
def parseNat (s : String) : Option Nat :=
  match s.data with
  | '+' :: rest => parseNatList rest
  | l => parseNatList l

/-- Rust `str::parse` for a bounded unsigned integer type (overflow is an error). -/
def parseNatLe (bound : Nat) (s : String) : Option Nat :=
  (parseNat s).bind (fun n => if n ≤ bound then some n else none)

/-- Rust `str::parse::<iN>`: optional sign, then digits. -/
def parseInt (s : String) : Option Int :=
  match s.data with
  | '-' :: rest => (parseNatList rest).map (fun n => -(n : Int))
  | '+' :: rest => (parseNatList rest).map (fun n => (n : Int))
  | l => (parseNatList l).map (fun n => (n : Int))

/-- Unsigned decimal numeral with an optional fractional part, as an exact
rational (built with `mkRat` so that theorems can evaluate it). -/
def parseRatUnsigned (l : List Char) : Option ℚ :=
  let ip := l.takeWhile (· ≠ '.')
  let rest := l.dropWhile (· ≠ '.')
  let fp : List Char := match rest with | [] => [] | _ :: t => t
  if ip.isEmpty ∧ fp.isEmpty then none
  else
    match digitsVal ip, digitsVal fp with
    | some i, some f => some (mkRat (i * 10 ^ fp.length + f) (10 ^ fp.length))
    | _, _ => none

/-- Rust `str::parse::<f64>` restricted to plain decimal numerals (the only forms
the wire protocol uses), as an exact rational. -/
def parseRat (s : String) : Option ℚ :=
  match s.data with
  | '-' :: rest => (parseRatUnsigned rest).map (fun q => mkRat (-q.num) q.den)
  | '+' :: rest => parseRatUnsigned rest
  | l => parseRatUnsigned l

/-- Exact rational addition written with `mkRat` and integer arithmetic (equal
to `+` on ℚ, see `qAdd_eq`); the embedding uses it so theorems can evaluate. -/
def qAdd (a b : ℚ) : ℚ := mkRat (a.num * (b.den : Int) + b.num * (a.den : Int)) (a.den * b.den)

/-- Exact rational subtraction written with `mkRat` (equal to `-` on ℚ). -/
def qSub (a b : ℚ) : ℚ := mkRat (a.num * (b.den : Int) - b.num * (a.den : Int)) (a.den * b.den)

/-- Rust `x as i32` on an exact rational: truncation toward zero. -/
def ratTruncToInt (q : ℚ) : Int := Int.tdiv q.num (q.den : Int)

def padLeftZeros (w : Nat) (s : String) : String :=
  if s.length < w then String.mk (List.replicate (w - s.length) '0') ++ s else s

/-- Rust `{:03}` formatting of an unsigned integer. -/
def pad3 (n : Nat) : String := padLeftZeros 3 (toString n)

/-- Rust `{:04}` formatting of an unsigned integer. -/
def pad4 (n : Nat) : String := padLeftZeros 4 (toString n)

/-- Rust `{:.prec$}` fixed-decimal formatting of an exact rational (rounding half
away from zero; no claim depends on tie behaviour), via integer arithmetic. -/
def fmtFixed (prec : Nat) (q : ℚ) : String :=
  let sign := if q.num < 0 then "-" else ""
  let scaledNum := q.num.natAbs * 10 ^ prec
  let rounded := (2 * scaledNum + q.den) / (2 * q.den)
  let ip := rounded / 10 ^ prec
  let fp := rounded % 10 ^ prec
  if prec = 0 then sign ++ toString ip
  else sign ++ toString ip ++ "." ++ padLeftZeros prec (toString fp)

def splitFieldsAux : List Char → List Char → List String
  | [], acc => [String.mk acc.reverse]
  | c :: cs, acc =>
      if c = ':' then String.mk acc.reverse :: splitFieldsAux cs []
      else splitFieldsAux cs (c :: acc)

/-- Modelled from the spec: the Field Tokenizer of §4.1 (it lives outside src/)
splits a raw line on every colon; tokenization itself never fails. -/
def splitFields (s : String) : List String := splitFieldsAux s.data []

def splitOnCharAux (sep : Char) : List Char → List Char → List String
  | [], acc => [String.mk acc.reverse]
  | c :: cs, acc =>
      if c = sep then String.mk acc.reverse :: splitOnCharAux sep cs []
      else splitOnCharAux sep cs (c :: acc)

/-- Rust `str::split` on a single separator character, defined structurally so
that theorems can evaluate it. -/
def splitOnChar (sep : Char) (s : String) : List String := splitOnCharAux sep s.data []

/-- A string containing no colon: its tokenization is itself. -/
def colonFree (s : String) : Prop := ':' ∉ s.data

instance (s : String) : Decidable (colonFree s) :=
  inferInstanceAs (Decidable (':' ∉ s.data))

/-- Rust `slice.join(":")` / the re-joining of free-text tail fields. -/
def joinColons : List String → String
  | [] => ""
  | [x] => x
  | x :: xs => x ++ ":" ++ joinColons xs

/-- Modelled from the spec: enums::AtcRating, an ATC rating carried on the wire as
its numeric code (src/ only consumes it via FromStr and renders it `as u8`). -/
abbrev AtcRating := Nat

/-- Modelled from the spec: enums::AtcRating::from_str, a numeric rating code. -/
def parseAtcRating (s : String) : Option AtcRating := parseNatLe 255 s

/-- Modelled from the spec: enums::PilotRating, numeric code as for AtcRating. -/
abbrev PilotRating := Nat

/-- Modelled from the spec: enums::PilotRating::from_str. -/
def parsePilotRating (s : String) : Option PilotRating := parseNatLe 255 s

/-- Modelled from the spec: enums::ProtocolRevision, carried as its numeric code
(the spec names code 9 as the default). -/
abbrev ProtocolRevision := Nat

/-- Modelled from the spec: enums::ProtocolRevision::from_str. -/
def parseProtocolRevision (s : String) : Option ProtocolRevision := parseNatLe 255 s

/-- Modelled from the spec: enums::AtcType, numeric facility-type code. -/
abbrev AtcType := Nat

/-- Modelled from the spec: enums::AtcType::from_str. -/
def parseAtcType (s : String) : Option AtcType := parseNatLe 255 s

/-- Modelled from the spec: the Level collaborator (a cruise level / altitude),
parsed from a numeric field. -/
abbrev Level := Nat

/-- Modelled from the spec: Level::from_str. -/
def parseLevel (s : String) : Option Level := parseNat s

/-- Modelled from the spec: the ScratchPad collaborator, free scratchpad text. -/
abbrev ScratchPad := String

/-- Modelled from the spec: ScratchPad::from_str, which accepts free text. -/
def parseScratchPad (s : String) : Option ScratchPad := some s

/-- Modelled from the spec: enums::TransponderMode, embedded as a one-letter code
in the pilot position marker suffix. -/
inductive TransponderMode where
  | standby
  | charlie
  | ident
deriving DecidableEq, Repr

/-- Modelled from the spec: enums::TransponderMode::from_str. -/
def parseTransponderMode (s : String) : Option TransponderMode :=
  if s = "S" then some TransponderMode.standby
  else if s = "N" then some TransponderMode.charlie
  else if s = "Y" then some TransponderMode.ident
  else none

/-- Modelled from the spec: the one-letter rendering of a TransponderMode. -/
def transponderModeDisplay : TransponderMode → String
  | TransponderMode.standby => "S"
  | TransponderMode.charlie => "N"
  | TransponderMode.ident => "Y"

/-- Modelled from the spec: enums::VoiceCapability short code. -/
inductive VoiceCapability where
  | voice
  | receiveOnly
  | textOnly
deriving DecidableEq, Repr

/-- Modelled from the spec: enums::VoiceCapability::from_str. -/
def parseVoiceCapability (s : String) : Option VoiceCapability :=
  if (strToUpper s) = "V" then some VoiceCapability.voice
  else if (strToUpper s) = "R" then some VoiceCapability.receiveOnly
  else if (strToUpper s) = "T" then some VoiceCapability.textOnly
  else none

/-- Modelled from the spec: structs::TransponderCode, a 4-digit octal code; the
value stored is the four octal digits read as a decimal numeral (e.g. 1200). -/
structure TransponderCode where
  digits : Nat
deriving DecidableEq, Repr

/-- Modelled from the spec: TransponderCode::from_str, the plain decimal wire
form — a decimal numeral whose four digits are each 0-7. -/
def parseTransponderCode (s : String) : Option TransponderCode :=
  (parseNat s).bind fun n =>
    if n ≤ 7777 ∧ n / 1000 % 10 ≤ 7 ∧ n / 100 % 10 ≤ 7 ∧ n / 10 % 10 ≤ 7 ∧ n % 10 ≤ 7
    then some ⟨n⟩ else none

/-- Modelled from the spec: TransponderCode::try_from_bcd_format (§4.6) — the BCD
text is a decimal numeral whose base-16 nibbles are the four code digits, each of
which must be a legal octal digit 0-7 (e.g. "8704" = 0x2200 → code 2200). -/
def transponderCodeFromBcd (s : String) : Option TransponderCode :=
  (parseNat s).bind fun n =>
    let d3 := n / 4096 % 16
    let d2 := n / 256 % 16
    let d1 := n / 16 % 16
    let d0 := n % 16
    if n < 65536 ∧ d3 ≤ 7 ∧ d2 ≤ 7 ∧ d1 ≤ 7 ∧ d0 ≤ 7
    then some ⟨d3 * 1000 + d2 * 100 + d1 * 10 + d0⟩ else none

/-- Modelled from the spec: the decimal rendering of a TransponderCode. -/
def transponderCodeDisplay (c : TransponderCode) : String := pad4 c.digits

/-- Modelled from the spec: structs::RadioFrequency, whole MHz and fractional
kHz parts (§3). -/
structure RadioFrequency where
  mhz : Nat
  khz : Nat
deriving DecidableEq, Repr

/-- Modelled from the spec: RadioFrequency parsed from its dotted human-readable
form "www.fff". -/
def radioFrequencyFromHumanReadable (s : String) : Option RadioFrequency :=
  match splitOnChar '.' s with
  | [w, f] => (parseNatList w.data).bind fun a => (parseNatList f.data).map fun b =>
      RadioFrequency.mk a b
  | _ => none

/-- Modelled from the spec: util::split_frequencies (§4.5) decodes a grouped
frequency field into the ordered frequency list and never fails; the grouping
syntax is external to src/, so this model splits on a joining symbol and keeps
the readable entries. No claim depends on its output values. -/
def splitFrequencies (s : String) : List RadioFrequency :=
  (splitOnChar '&' s).filterMap radioFrequencyFromHumanReadable

/-- Modelled from the spec: std::net::Ipv4Addr::from_str, four dotted decimal
octets. -/
def parseIpv4 (s : String) : Option (Nat × Nat × Nat × Nat) :=
  match splitOnChar '.' s with
  | [a, b, c, d] =>
      (parseNatList a.data).bind fun x =>
      (parseNatList b.data).bind fun y =>
      (parseNatList c.data).bind fun z =>
      (parseNatList d.data).bind fun w =>
      if x ≤ 255 ∧ y ≤ 255 ∧ z ≤ 255 ∧ w ≤ 255 then some (x, y, z, w) else none
  | _ => none

/-- Modelled from the spec (§4.4): util::encode_pitch_bank_heading packs quantized
pitch, bank, heading and the on-ground flag into one integer; the exact bit layout
is an external protocol constant the spec leaves open, and no claim depends on it,
so a simple 10-bits-per-angle layout stands in for it. -/
def encodePitchBankHeading (pitch bank heading : ℚ) (onGround : Bool) : Nat :=
  let quant (x : ℚ) : Nat := (Int.tdiv (x.num * 1024) ((x.den : Int) * 360)).natAbs % 1024
  quant pitch * 2097152 + quant bank * 2048 + quant heading * 2 +
    (if onGround then 1 else 0)

/-- Modelled from the spec (§4.4): util::decode_pitch_bank_heading, inverse of the
packing up to quantization. -/
def decodePitchBankHeading (n : Nat) : ℚ × ℚ × ℚ × Bool :=
  (mkRat (n / 2097152 % 1024 * 360 : Nat) 1024,
   mkRat (n / 2048 % 1024 * 360 : Nat) 1024,
   mkRat (n / 2 % 1024 * 360 : Nat) 1024,
   n % 2 == 1)

/-- Modelled from the spec: structs::FlightPlan, an external collaborator consumed
via TryFrom over a field slice and assumed correct (§3); modelled as the verbatim
field slice. -/
structure FlightPlan where
  fields : List String
deriving DecidableEq, Repr

/-- Modelled from the spec: FlightPlan::try_from on a field slice (assumed
correct, so it accepts the slice verbatim). -/
def flightPlanFromFields (l : List String) : Option FlightPlan := some ⟨l⟩

/-- Modelled from the spec: structs::PlaneInfo, an external collaborator parsed
over all trailing fields (§3). -/
structure PlaneInfo where
  fields : List String
deriving DecidableEq, Repr

/-- Modelled from the spec: PlaneInfo::try_from on a field slice. -/
def planeInfoFromFields (l : List String) : Option PlaneInfo := some ⟨l⟩

/-- Modelled from the spec: aircraft_config::AircraftConfig, an opaque collaborator
record whose own parse/format contract is assumed correct (§3). -/
structure AircraftConfig where
  raw : String
deriving DecidableEq, Repr

/-- Modelled from the spec: AircraftConfig::from_str (assumed correct). -/
def parseAircraftConfig (s : String) : Option AircraftConfig := some ⟨s⟩

/-- Modelled from the spec: chrono::NaiveDateTime::parse_from_str with format
"%Y%m%d%H%M%S" — exactly fourteen digits. -/
def parseSimTime (s : String) : Option Nat :=
  if s.data.length = 14 ∧ s.data.all (·.isDigit) then digitsVal s.data else none

/-- Modelled from the spec: util::parse_new_atis over the trailing fields of a
NEWATIS client query — an ATIS letter (last character of the first field, A-Z),
the surface wind, and the pressure. -/
def parseNewAtis : List String → Option (Char × String × String)
  | a :: b :: rest =>
      match a.data.getLast? with
      | some c =>
          let c := c.toUpper
          if 65 ≤ c.toNat ∧ c.toNat ≤ 90 then some (c, b, rest.headD "") else none
      | none => none
  | _ => none

/-- Modelled from the spec: util::assemble_with_colons re-joins fields with ':'. -/
def assembleWithColons (l : List String) : String := joinColons l

/-- Modelled from the spec: enums::ClientCapability entries of a capability list;
kept as their raw short-code text. -/
abbrev ClientCapability := String

/-- Modelled from the spec: util::read_capabilities over the trailing fields. -/
def readCapabilities (l : List String) : List ClientCapability := l

/-- LandLineType from the crate root: the three land-line channel types (§4.2). -/
inductive LandLineType where
  | intercom
  | override
  | monitor
deriving DecidableEq, Repr

/-- LandLineCommand from the crate root: the four land-line commands (§4.2). -/
inductive LandLineCommand where
  | request (ip_address : Nat × Nat × Nat × Nat) (port : Nat)
  | approve (ip_address : Nat × Nat × Nat × Nat) (port : Nat)
  | reject
  | endCommand
deriving DecidableEq, Repr

/-- The command axis of a land-line command, forgetting the ip/port payload. -/
inductive LandLineCommandKind where
  | requestKind
  | approveKind
  | rejectKind
  | endKind
deriving DecidableEq, Repr

def LandLineCommand.kind : LandLineCommand → LandLineCommandKind
  | LandLineCommand.request _ _ => LandLineCommandKind.requestKind
  | LandLineCommand.approve _ _ => LandLineCommandKind.approveKind
  | LandLineCommand.reject => LandLineCommandKind.rejectKind
  | LandLineCommand.endCommand => LandLineCommandKind.endKind

/-- Modelled from the spec: enums::AtisLine, the four ATIS line kinds. -/
inductive AtisLine where
  | voiceServer (url : String)
  | textLine (text : String)
  | logoffTime (time : Option Nat)
  | endMarker (lineCount : Nat)
deriving DecidableEq, Repr

/-- errors::FsdError (consumed by FsdErrorMessage). The variant set and payloads
are taken from the match in FsdErrorMessage::try_from in src/; the type itself is
declared outside src/. -/
inductive FsdError where
  | callsignInUse
  | invalidCallsign
  | alreadyRegistered
  | syntaxError
  | invalidCidPassword
  | noSuchCallsign (callsign : String)
  | noFlightPlan (callsign : String)
  | noWeatherProfile (station : String)
  | invalidProtocolRevision
  | requestedLevelTooHigh
  | serverFull
  | certificateSuspended
  | invalidControl
  | invalidPositionForRating
  | unauthorisedClient
  | authTimeOut
  | other (message : String)
deriving DecidableEq, Repr

/-- Modelled from the spec: FsdError::error_number, the numeric wire code of each
error kind; the numbers invert the code→kind match in FsdErrorMessage::try_from
(InvalidCallsign appears there under 2 and 5; 2 is used). The code for `other`
falls outside the mapped range 1-17. -/
def FsdError.error_number : FsdError → Nat
  | FsdError.callsignInUse => 1
  | FsdError.invalidCallsign => 2
  | FsdError.alreadyRegistered => 3
  | FsdError.syntaxError => 4
  | FsdError.invalidCidPassword => 6
  | FsdError.noSuchCallsign _ => 7
  | FsdError.noFlightPlan _ => 8
  | FsdError.noWeatherProfile _ => 9
  | FsdError.invalidProtocolRevision => 10
  | FsdError.requestedLevelTooHigh => 11
  | FsdError.serverFull => 12
  | FsdError.certificateSuspended => 13
  | FsdError.invalidControl => 14
  | FsdError.invalidPositionForRating => 15
  | FsdError.unauthorisedClient => 16
  | FsdError.authTimeOut => 17
  | FsdError.other _ => 0

/-- AtcRegisterMessage (src/src/messages.rs lines 42-51). -/
structure AtcRegisterMessage where
  «from» : String
  «to» : String
  real_name : String
  cid : String
  password : String
  rating : AtcRating
  protocol : ProtocolRevision
deriving DecidableEq, Repr

/-- AtcRegisterMessage::new (lines 87-107): upper-cases `from` and `to`. -/
def atcRegisterMessageNew (f t real_name cid password : String)
    (rating : AtcRating) (protocol : ProtocolRevision) : AtcRegisterMessage :=
  { «from» := (strToUpper f), «to» := (strToUpper t), real_name, cid, password, rating, protocol }

/-- AtcRegisterMessage::try_from (lines 70-85): at least 7 fields, marker `#AA`
stripped off field 0, rating from field 5, protocol from field 6 with textual
default "9" when the field is absent. -/
def atcRegisterTryFrom (fields : List String) : Outcome AtcRegisterMessage :=
  if fields.length < 7 then Outcome.fails (.invalidFieldCount 7 fields.length) else
  Outcome.bind (index fields 0) fun f0 =>
  let first := strDrop 3 f0
  Outcome.bind (index fields 1) fun f1 =>
  Outcome.bind (index fields 2) fun f2 =>
  Outcome.bind (index fields 3) fun f3 =>
  Outcome.bind (index fields 4) fun f4 =>
  Outcome.bind (index fields 5) fun f5 =>
  Outcome.bind (parsed (parseAtcRating f5) (.invalidRating f5)) fun rating =>
  let p := (fields.get? 6).getD "9"
  Outcome.bind (parsed (parseProtocolRevision p) (.invalidProtocolRevision p)) fun protocol =>
  Outcome.ok (atcRegisterMessageNew first f1 f2 f3 f4 rating protocol)

/-- impl Display for AtcRegisterMessage (lines 54-68). -/
def atcRegisterDisplay (m : AtcRegisterMessage) : String :=
  "#AA" ++ m.«from» ++ ":" ++ m.«to» ++ ":" ++ m.real_name ++ ":" ++ m.cid ++ ":" ++
    m.password ++ ":" ++ toString m.rating ++ ":" ++ toString m.protocol

/-- AtcPositionUpdateMessage (lines 258-268). -/
structure AtcPositionUpdateMessage where
  callsign : String
  frequencies : List RadioFrequency
  atc_type : AtcType
  vis_range : Nat
  rating : AtcRating
  latitude : ℚ
  longitude : ℚ
  elevation : Int
deriving DecidableEq, Repr

/-- AtcPositionUpdateMessage::new (lines 312-334): upper-cases the callsign. -/
def atcPositionUpdateMessageNew (callsign : String) (frequencies : List RadioFrequency)
    (atc_type : AtcType) (vis_range : Nat) (rating : AtcRating)
    (latitude longitude : ℚ) (elevation : Int) : AtcPositionUpdateMessage :=
  { callsign := (strToUpper callsign), frequencies, atc_type, vis_range, rating,
    latitude, longitude, elevation }

/-- AtcPositionUpdateMessage::try_from (lines 288-310): at least 7 fields; the
optional field 7 (elevation) falls back to the text "0" when absent and to the
i32 default 0 when it fails to parse (`unwrap_or_default`). -/
def atcPositionUpdateTryFrom (fields : List String) : Outcome AtcPositionUpdateMessage :=
  if fields.length < 7 then Outcome.fails (.invalidFieldCount 7 fields.length) else
  Outcome.bind (index fields 0) fun f0 =>
  let first := strDrop 1 f0
  Outcome.bind (index fields 1) fun f1 =>
  Outcome.bind (index fields 2) fun f2 =>
  Outcome.bind (parsed (parseAtcType f2) (.invalidAtcType f2)) fun atc_type =>
  Outcome.bind (index fields 3) fun f3 =>
  Outcome.bind (parsed (parseNatLe 4294967295 f3) (.invalidVisRange f3)) fun vis_range =>
  Outcome.bind (index fields 4) fun f4 =>
  Outcome.bind (parsed (parseAtcRating f4) (.invalidRating f4)) fun rating =>
  Outcome.bind (index fields 5) fun f5 =>
  Outcome.bind (parsed (parseRat f5) (.invalidCoordinate f5)) fun latitude =>
  Outcome.bind (index fields 6) fun f6 =>
  Outcome.bind (parsed (parseRat f6) (.invalidCoordinate f6)) fun longitude =>
  let elevation : Int := (parseInt ((fields.get? 7).getD "0")).getD 0
  Outcome.ok (atcPositionUpdateMessageNew first (splitFrequencies f1) atc_type
    vis_range rating latitude longitude elevation)

/-- AtcSecondaryVisCentreMessage (lines 336-342). -/
structure AtcSecondaryVisCentreMessage where
  callsign : String
  idx : Nat
  latitude : ℚ
  longitude : ℚ
deriving DecidableEq, Repr

/-- AtcSecondaryVisCentreMessage::new (lines 374-383). -/
def atcSecondaryVisCentreMessageNew (callsign : String) (idx : Nat)
    (latitude longitude : ℚ) : AtcSecondaryVisCentreMessage :=
  { callsign := (strToUpper callsign), idx, latitude, longitude }

/-- AtcSecondaryVisCentreMessage::try_from (lines 354-372): at least 4 fields.
Note the source's map_err closures for both coordinates read `fields[5]`, an
index that is out of bounds (a panic) whenever fewer than 6 fields were given. -/
def atcSecondaryVisCentreTryFrom (fields : List String) :
    Outcome AtcSecondaryVisCentreMessage :=
  if fields.length < 4 then Outcome.fails (.invalidFieldCount 4 fields.length) else
  Outcome.bind (index fields 0) fun f0 =>
  let first := strDrop 1 f0
  Outcome.bind (index fields 1) fun f1 =>
  Outcome.bind (parsed (parseNat f1) (.invalidIndex f1)) fun idx =>
  Outcome.bind (index fields 2) fun f2 =>
  Outcome.bind
    (match parseRat f2 with
     | some lat => Outcome.ok lat
     | none => Outcome.bind (index fields 5) fun f5 =>
         Outcome.fails (.invalidCoordinate f5)) fun latitude =>
  Outcome.bind (index fields 3) fun f3 =>
  Outcome.bind
    (match parseRat f3 with
     | some lon => Outcome.ok lon
     | none => Outcome.bind (index fields 5) fun f5 =>
         Outcome.fails (.invalidCoordinate f5)) fun longitude =>
  Outcome.ok (atcSecondaryVisCentreMessageNew first idx latitude longitude)

/-- PilotPositionUpdateMessage (lines 386-401). -/
structure PilotPositionUpdateMessage where
  callsign : String
  transponder_mode : TransponderMode
  transponder_code : TransponderCode
  rating : PilotRating
  latitude : ℚ
  longitude : ℚ
  true_altitude : ℚ
  pressure_altitude : ℚ
  ground_speed : Nat
  pitch : ℚ
  bank : ℚ
  heading : ℚ
  on_ground : Bool
deriving DecidableEq, Repr

/-- PilotPositionUpdateMessage::new (lines 468-499). -/
def pilotPositionUpdateMessageNew (callsign : String) (transponder_mode : TransponderMode)
    (transponder_code : TransponderCode) (rating : PilotRating)
    (latitude longitude true_altitude pressure_altitude : ℚ) (ground_speed : Nat)
    (pitch bank heading : ℚ) (on_ground : Bool) : PilotPositionUpdateMessage :=
  { callsign := (strToUpper callsign), transponder_mode, transponder_code, rating,
    latitude, longitude, true_altitude, pressure_altitude, ground_speed,
    pitch, bank, heading, on_ground }

/-- PilotPositionUpdateMessage::try_from (lines 425-466): at least 10 fields; the
pressure altitude is derived as true altitude (field 6) plus the signed altitude
difference (field 9); pitch/bank/heading/on-ground from the packed field 8. -/
def pilotPositionUpdateTryFrom (fields : List String) :
    Outcome PilotPositionUpdateMessage :=
  if fields.length < 10 then Outcome.fails (.invalidFieldCount 10 fields.length) else
  Outcome.bind (index fields 0) fun f0 =>
  let first := strDrop 1 f0
  Outcome.bind (index fields 6) fun f6 =>
  Outcome.bind (parsed (parseRat f6) (.invalidAltitude f6)) fun true_altitude =>
  Outcome.bind (index fields 9) fun f9 =>
  Outcome.bind (parsed (parseRat f9) (.invalidAltitudeDifference f9)) fun alt_diff =>
  Outcome.bind (index fields 8) fun f8 =>
  Outcome.bind (parsed (parseNatLe 4294967295 f8) (.invalidPitchBankHeading f8)) fun pbh =>
  let pbhDec := decodePitchBankHeading pbh
  Outcome.bind (index fields 1) fun f1 =>
  Outcome.bind (parsed (parseTransponderMode first) (.invalidTransponderMode first))
    fun transponder_mode =>
  Outcome.bind (index fields 2) fun f2 =>
  Outcome.bind (parsed (parseTransponderCode f2) (.invalidTransponderCode f2))
    fun transponder_code =>
  Outcome.bind (index fields 3) fun f3 =>
  Outcome.bind (parsed (parsePilotRating f3) (.invalidPilotRating f3)) fun rating =>
  Outcome.bind (index fields 4) fun f4 =>
  Outcome.bind (parsed (parseRat f4) (.invalidCoordinate f4)) fun latitude =>
  Outcome.bind (index fields 5) fun f5 =>
  Outcome.bind (parsed (parseRat f5) (.invalidCoordinate f5)) fun longitude =>
  Outcome.bind (index fields 7) fun f7 =>
  Outcome.bind (parsed (parseNatLe 4294967295 f7) (.invalidSpeed f7)) fun ground_speed =>
  Outcome.ok (pilotPositionUpdateMessageNew f1 transponder_mode transponder_code rating
    latitude longitude true_altitude (qAdd true_altitude alt_diff) ground_speed
    pbhDec.1 pbhDec.2.1 pbhDec.2.2.1 pbhDec.2.2.2)

/-- The first nine colon-separated components written by
impl Display for PilotPositionUpdateMessage (lines 403-423), everything before
the trailing altitude-difference field. -/
def pilotPositionUpdateDisplayHead (m : PilotPositionUpdateMessage) : String :=
  "@" ++ transponderModeDisplay m.transponder_mode ++ ":" ++ m.callsign ++ ":" ++
    transponderCodeDisplay m.transponder_code ++ ":" ++ toString m.rating ++ ":" ++
    fmtFixed 5 m.latitude ++ ":" ++ fmtFixed 5 m.longitude ++ ":" ++
    toString (ratTruncToInt m.true_altitude) ++ ":" ++ toString m.ground_speed ++ ":" ++
    toString (encodePitchBankHeading m.pitch m.bank m.heading m.on_ground)

/-- impl Display for PilotPositionUpdateMessage (lines 403-423): the last field is
the altitude difference pressure - true, written `as i32` (truncated). -/
def pilotPositionUpdateDisplay (m : PilotPositionUpdateMessage) : String :=
  pilotPositionUpdateDisplayHead m ++ ":" ++
    toString (ratTruncToInt (qSub m.pressure_altitude m.true_altitude))

/-- TextMessage (lines 570-575). -/
structure TextMessage where
  «from» : String
  «to» : String
  message : String
deriving DecidableEq, Repr

/-- TextMessage::new (lines 597-605). -/
def textMessageNew (f t message : String) : TextMessage :=
  { «from» := (strToUpper f), «to» := (strToUpper t), message }

/-- Rust loop in TextMessage::try_from (lines 586-592): starting from field 2 the
remaining fields are appended each behind a ':'. -/
def pushTail (acc : String) : List String → String
  | [] => acc
  | m :: ms => pushTail (acc ++ ":" ++ m) ms

/-- TextMessage::try_from (lines 581-595): at least 3 fields; fields 2.. are
re-joined with ':'. -/
def textMessageTryFrom (fields : List String) : Outcome TextMessage :=
  if fields.length < 3 then Outcome.fails (.invalidFieldCount 3 fields.length) else
  Outcome.bind (index fields 0) fun f0 =>
  let first := strDrop 3 f0
  Outcome.bind (index fields 2) fun f2 =>
  let message := pushTail f2 (fields.drop 3)
  Outcome.bind (index fields 1) fun f1 =>
  Outcome.ok (textMessageNew first f1 message)

/-- impl Display for TextMessage (lines 576-580). -/
def textMessageDisplay (m : TextMessage) : String :=
  "#TM" ++ m.«from» ++ ":" ++ m.«to» ++ ":" ++ m.message

/-- MetarRequestMessage (lines 1311-1316). -/
structure MetarRequestMessage where
  «from» : String
  «to» : String
  station : String
deriving DecidableEq, Repr

/-- MetarRequestMessage::new (lines 1334-1342): upper-cases all three fields. -/
def metarRequestMessageNew (f t station : String) : MetarRequestMessage :=
  { «from» := (strToUpper f), «to» := (strToUpper t), station := (strToUpper station) }

/-- MetarRequestMessage::try_from (lines 1324-1332): at least 4 fields; field 2
(the literal METAR slot) is never inspected, the station is field 3. -/
def metarRequestTryFrom (fields : List String) : Outcome MetarRequestMessage :=
  if fields.length < 4 then Outcome.fails (.invalidFieldCount 4 fields.length) else
  Outcome.bind (index fields 0) fun f0 =>
  let first := strDrop 3 f0
  Outcome.bind (index fields 1) fun f1 =>
  Outcome.bind (index fields 3) fun f3 =>
  Outcome.ok (metarRequestMessageNew first f1 f3)

/-- impl Display for MetarRequestMessage (lines 1318-1322): always emits the
literal METAR in the third slot. -/
def metarRequestDisplay (m : MetarRequestMessage) : String :=
  "$AX" ++ m.«from» ++ ":" ++ m.«to» ++ ":METAR:" ++ m.station

/-- MetarResponseMessage (lines 1344-1349). -/
structure MetarResponseMessage where
  «from» : String
  «to» : String
  metar : String
deriving DecidableEq, Repr

/-- MetarResponseMessage::new (lines 1367-1375). -/
def metarResponseMessageNew (f t metar : String) : MetarResponseMessage :=
  { «from» := (strToUpper f), «to» := (strToUpper t), metar := (strToUpper metar) }

/-- MetarResponseMessage::try_from (lines 1357-1365): same shape as the request,
field 2 never inspected. -/
def metarResponseTryFrom (fields : List String) : Outcome MetarResponseMessage :=
  if fields.length < 4 then Outcome.fails (.invalidFieldCount 4 fields.length) else
  Outcome.bind (index fields 0) fun f0 =>
  let first := strDrop 3 f0
  Outcome.bind (index fields 1) fun f1 =>
  Outcome.bind (index fields 3) fun f3 =>
  Outcome.ok (metarResponseMessageNew first f1 f3)

/-- impl Display for MetarResponseMessage (lines 1351-1355). -/
def metarResponseDisplay (m : MetarResponseMessage) : String :=
  "$AR" ++ m.«from» ++ ":" ++ m.«to» ++ ":METAR:" ++ m.metar

/-- PlaneInfoRequestMessage (lines 1443-1447). -/
structure PlaneInfoRequestMessage where
  «from» : String
  «to» : String
deriving DecidableEq, Repr

/-- PlaneInfoRequestMessage::new (lines 1465-1472): stores both identifiers
verbatim (`as_ref().into()`), without upper-casing. -/
def planeInfoRequestMessageNew (f t : String) : PlaneInfoRequestMessage :=
  { «from» := f, «to» := t }

/-- PlaneInfoRequestMessage::try_from (lines 1455-1463). -/
def planeInfoRequestTryFrom (fields : List String) : Outcome PlaneInfoRequestMessage :=
  if fields.length < 3 then Outcome.fails (.invalidFieldCount 3 fields.length) else
  Outcome.bind (index fields 0) fun f0 =>
  let first := strDrop 3 f0
  Outcome.bind (index fields 1) fun f1 =>
  Outcome.ok (planeInfoRequestMessageNew first f1)

/-- FsdErrorMessage (lines 1514-1519). -/
structure FsdErrorMessage where
  «from» : String
  «to» : String
  error_type : FsdError
deriving DecidableEq, Repr

/-- FsdErrorMessage::new (lines 1576-1584). -/
def fsdErrorMessageNew (f t : String) (error_type : FsdError) : FsdErrorMessage :=
  { «from» := (strToUpper f), «to» := (strToUpper t), error_type }

/-- impl Display for FsdErrorMessage (lines 1521-1542): the error number is
zero-padded to three digits, field 3 is always written empty, and only the
`Other` kind writes its message in field 4 — the callsign/flight-plan/station
payloads of the other kinds are not written. -/
def fsdErrorDisplay (m : FsdErrorMessage) : String :=
  match m.error_type with
  | FsdError.other message =>
      "$ER" ++ m.«from» ++ ":" ++ m.«to» ++ ":" ++
        pad3 m.error_type.error_number ++ "::" ++ message
  | _ =>
      "$ER" ++ m.«from» ++ ":" ++ m.«to» ++ ":" ++
        pad3 m.error_type.error_number ++ "::"

/-- FsdErrorMessage::try_from (lines 1544-1574): at least 5 fields; the numeric
code in field 2 selects the kind, codes 7/8/9 recover their payload from field 3
(upper-cased), and unmapped codes fall back to Other carrying field 4. -/
def fsdErrorTryFrom (fields : List String) : Outcome FsdErrorMessage :=
  if fields.length < 5 then Outcome.fails (.invalidFieldCount 5 fields.length) else
  Outcome.bind (index fields 0) fun f0 =>
  let first := strDrop 3 f0
  Outcome.bind (index fields 2) fun f2 =>
  Outcome.bind (parsed (parseNatLe 255 f2) (.invalidServerError f2)) fun n =>
  Outcome.bind (index fields 3) fun f3 =>
  Outcome.bind (index fields 4) fun f4 =>
  let error_type : FsdError :=
    if n = 1 then FsdError.callsignInUse
    else if n = 2 then FsdError.invalidCallsign
    else if n = 3 then FsdError.alreadyRegistered
    else if n = 4 then FsdError.syntaxError
    else if n = 5 then FsdError.invalidCallsign
    else if n = 6 then FsdError.invalidCidPassword
    else if n = 7 then FsdError.noSuchCallsign (strToUpper f3)
    else if n = 8 then FsdError.noFlightPlan (strToUpper f3)
    else if n = 9 then FsdError.noWeatherProfile (strToUpper f3)
    else if n = 10 then FsdError.invalidProtocolRevision
    else if n = 11 then FsdError.requestedLevelTooHigh
    else if n = 12 then FsdError.serverFull
    else if n = 13 then FsdError.certificateSuspended
    else if n = 14 then FsdError.invalidControl
    else if n = 15 then FsdError.invalidPositionForRating
    else if n = 16 then FsdError.unauthorisedClient
    else if n = 17 then FsdError.authTimeOut
    else FsdError.other f4
  Outcome.bind (index fields 1) fun f1 =>
  Outcome.ok (fsdErrorMessageNew first f1 error_type)

/-- FlightPlanMessage (lines 1586-1591). -/
structure FlightPlanMessage where
  «to» : String
  callsign : String
  flight_plan : FlightPlan
deriving DecidableEq, Repr

/-- FlightPlanMessage::new (lines 1616-1624). -/
def flightPlanMessageNew (t callsign : String) (flight_plan : FlightPlan) :
    FlightPlanMessage :=
  { «to» := (strToUpper t), callsign := (strToUpper callsign), flight_plan }

/-- FlightPlanMessage::try_from (lines 1602-1614): exactly 17 fields; fields 2..
hand off verbatim to the FlightPlan collaborator. -/
def flightPlanTryFrom (fields : List String) : Outcome FlightPlanMessage :=
  if fields.length ≠ 17 then Outcome.fails (.invalidFieldCount 17 fields.length) else
  Outcome.bind (index fields 0) fun f0 =>
  let first := strDrop 3 f0
  Outcome.bind (index fields 1) fun f1 =>
  Outcome.bind (parsed (flightPlanFromFields (fields.drop 2))
    (.unknownMessageType (joinColons fields))) fun fp =>
  Outcome.ok (flightPlanMessageNew f1 first fp)

/-- FlightPlanAmendmentMessage (lines 1626-1632). -/
structure FlightPlanAmendmentMessage where
  «from» : String
  «to» : String
  callsign : String
  flight_plan : FlightPlan
deriving DecidableEq, Repr

/-- FlightPlanAmendmentMessage::new (lines 1661-1675). -/
def flightPlanAmendmentMessageNew (f t callsign : String) (flight_plan : FlightPlan) :
    FlightPlanAmendmentMessage :=
  { «from» := (strToUpper f), «to» := (strToUpper t), callsign := (strToUpper callsign), flight_plan }

/-- FlightPlanAmendmentMessage::try_from (lines 1647-1659): exactly 18 fields. -/
def flightPlanAmendmentTryFrom (fields : List String) : Outcome FlightPlanAmendmentMessage :=
  if fields.length ≠ 18 then Outcome.fails (.invalidFieldCount 18 fields.length) else
  Outcome.bind (index fields 0) fun f0 =>
  let first := strDrop 3 f0
  Outcome.bind (index fields 1) fun f1 =>
  Outcome.bind (index fields 2) fun f2 =>
  Outcome.bind (parsed (flightPlanFromFields (fields.drop 3))
    (.unknownMessageType (joinColons fields))) fun fp =>
  Outcome.ok (flightPlanAmendmentMessageNew first f1 f2 fp)

/-- ClientQueryType from enums (consumed by ClientQueryMessage); the variant set
and payloads are taken from the construction sites in ClientQueryMessage::try_from
(lines 1690-2004). -/
inductive ClientQueryType where
  | com1Freq
  | publicIP
  | atis
  | realName
  | forceBeaconCode (code : TransponderCode)
  | server
  | aircraftConfigurationRequest
  | aircraftConfigurationResponse (aircraft_config : AircraftConfig)
  | requestRelief
  | helpRequest (message : Option String)
  | cancelHelpRequest (message : Option String)
  | setScratchpad (aircraft_callsign : String) (contents : ScratchPad)
  | setFinalAltitude (aircraft_callsign : String) (level : Level)
  | setBeaconCode (aircraft_callsign : String) (code : TransponderCode)
  | isValidATC (atc_callsign : String)
  | flightPlan (aircraft_callsign : String)
  | newATIS (atis_letter : Char) (surface_wind : String) (pressure : String)
  | newInfo (atis_letter : Char)
  | setVoiceType (aircraft_callsign : String) (voice_capability : VoiceCapability)
  | whoHas (aircraft_callsign : String)
  | setTempAltitude (aircraft_callsign : String) (level : Level)
  | acceptHandoff (aircraft_callsign : String) (atc_callsign : String)
  | dropTrack (aircraft_callsign : String)
  | capabilities
  | initiateTrack (aircraft_callsign : String)
  | cancelRequestRelief
  | inf
  | simTime (time : Nat)
  | setGlobalData (aircraft_callsign : String) (contents : String)
deriving DecidableEq, Repr

/-- ClientQueryMessage (lines 1677-1683). -/
structure ClientQueryMessage where
  «from» : String
  «to» : String
  query_type : ClientQueryType
deriving DecidableEq, Repr

/-- ClientQueryMessage::new (lines 2005-2012): upper-cases `from` and `to`. -/
def clientQueryMessageNew (f t : String) (query_type : ClientQueryType) :
    ClientQueryMessage :=
  { «from» := (strToUpper f), «to» := (strToUpper t), query_type }

/-- ClientQueryMessage::try_from (lines 1690-2004): at least 3 fields, then
dispatch on the sub-type discriminator in field 2. The IPC arm takes the slice
`fields.get(3..6)`, reporting InvalidFieldCount(6, 3) — with a hardcoded actual
count of 3 — whenever fewer than 6 fields are present. -/
def clientQueryTryFrom (fields : List String) : Outcome ClientQueryMessage :=
  if fields.length < 3 then Outcome.fails (.invalidFieldCount 3 fields.length) else
  Outcome.bind (index fields 0) fun f0 =>
  let first := strDrop 3 f0
  Outcome.bind (index fields 1) fun f1 =>
  Outcome.bind (index fields 2) fun f2 =>
  match f2 with
  | "C?" => Outcome.ok (clientQueryMessageNew first f1 ClientQueryType.com1Freq)
  | "IP" => Outcome.ok (clientQueryMessageNew first f1 ClientQueryType.publicIP)
  | "ATIS" => Outcome.ok (clientQueryMessageNew first f1 ClientQueryType.atis)
  | "RN" => Outcome.ok (clientQueryMessageNew first f1 ClientQueryType.realName)
  | "IPC" =>
      if fields.length < 6 then Outcome.fails (.invalidFieldCount 6 3) else
      Outcome.bind (index fields 3) fun r0 =>
      Outcome.bind (index fields 4) fun r1 =>
      Outcome.bind (index fields 5) fun r2 =>
      if r0 ≠ "W" ∨ r1 ≠ "852" then
        Outcome.fails (.unknownMessageType ("IPC:" ++ f0 ++ ":" ++ f1 ++ ":" ++ f2))
      else
        Outcome.bind (parsed (transponderCodeFromBcd r2) (.invalidTransponderCode r2))
          fun code =>
        Outcome.ok (clientQueryMessageNew first f1 (ClientQueryType.forceBeaconCode code))
  | "SV" => Outcome.ok (clientQueryMessageNew first f1 ClientQueryType.server)
  | "ACC" =>
      match fields.get? 3 with
      | none => Outcome.fails (.invalidFieldCount 4 3)
      | some data =>
          if data.containsSubstr "request" then
            Outcome.ok (clientQueryMessageNew first f1
              ClientQueryType.aircraftConfigurationRequest)
          else
            let dataString := joinColons (fields.drop 3)
            Outcome.bind (parsed (parseAircraftConfig dataString)
              (.unknownMessageType dataString)) fun cfg =>
            Outcome.ok (clientQueryMessageNew first f1
              (ClientQueryType.aircraftConfigurationResponse cfg))
  | "BY" => Outcome.ok (clientQueryMessageNew first f1 ClientQueryType.requestRelief)
  | "HLP" =>
      let message := match fields.get? 3 with
        | some s => if s = "" then none else some s
        | none => none
      Outcome.ok (clientQueryMessageNew first f1 (ClientQueryType.helpRequest message))
  | "NOHLP" =>
      let message := match fields.get? 3 with
        | some s => if s = "" then none else some s
        | none => none
      Outcome.ok (clientQueryMessageNew first f1 (ClientQueryType.cancelHelpRequest message))
  | "SC" =>
      if fields.length < 5 then Outcome.fails (.invalidFieldCount 5 fields.length) else
      Outcome.bind (index fields 4) fun f4 =>
      Outcome.bind (parsed (parseScratchPad f4) (.invalidSharedStateType f4)) fun contents =>
      Outcome.bind (index fields 3) fun f3 =>
      Outcome.ok (clientQueryMessageNew first f1
        (ClientQueryType.setScratchpad (strToUpper f3) contents))
  | "FA" =>
      if fields.length < 5 then Outcome.fails (.invalidFieldCount 5 fields.length) else
      Outcome.bind (index fields 4) fun f4 =>
      Outcome.bind (parsed (parseLevel f4) (.invalidLevel f4)) fun level =>
      Outcome.bind (index fields 3) fun f3 =>
      Outcome.ok (clientQueryMessageNew first f1
        (ClientQueryType.setFinalAltitude (strToUpper f3) level))
  | "BC" =>
      if fields.length < 5 then Outcome.fails (.invalidFieldCount 5 fields.length) else
      Outcome.bind (index fields 4) fun f4 =>
      Outcome.bind (parsed (parseTransponderCode f4) (.invalidTransponderCode f4)) fun code =>
      Outcome.bind (index fields 3) fun f3 =>
      Outcome.ok (clientQueryMessageNew first f1
        (ClientQueryType.setBeaconCode (strToUpper f3) code))
  | "ATC" =>
      let atc_callsign := (strToUpper ((fields.get? 3).getD first))
      Outcome.ok (clientQueryMessageNew first f1 (ClientQueryType.isValidATC atc_callsign))
  | "FP" =>
      match fields.get? 3 with
      | none => Outcome.fails (.invalidFieldCount 4 3)
      | some f3 =>
          Outcome.ok (clientQueryMessageNew first f1 (ClientQueryType.flightPlan (strToUpper f3)))
  | "NEWATIS" =>
      if fields.length < 5 then Outcome.fails (.invalidFieldCount 5 fields.length) else
      Outcome.bind (parsed (parseNewAtis (fields.drop 3))
        (.invalidATISLine (joinColons (fields.drop 3)))) fun na =>
      Outcome.ok (clientQueryMessageNew first f1
        (ClientQueryType.newATIS na.1 na.2.1 na.2.2))
  | "NEWINFO" =>
      if fields.length < 4 then Outcome.fails (.invalidFieldCount 4 fields.length) else
      Outcome.bind (index fields 3) fun f3 =>
      (match f3.data.getLast? with
       | some c =>
           let c := c.toUpper
           if 65 ≤ c.toNat ∧ c.toNat ≤ 90 then
             Outcome.ok (clientQueryMessageNew first f1 (ClientQueryType.newInfo c))
           else Outcome.fails (.invalidATISLine (joinColons fields))
       | none => Outcome.fails (.invalidATISLine (joinColons fields)))
  | "VT" =>
      if fields.length < 5 then Outcome.fails (.invalidFieldCount 5 fields.length) else
      Outcome.bind (index fields 3) fun f3 =>
      Outcome.bind (index fields 4) fun f4 =>
      Outcome.bind (parsed (parseVoiceCapability f4) (.invalidVoiceCapability f4)) fun vc =>
      Outcome.ok (clientQueryMessageNew first f1
        (ClientQueryType.setVoiceType (strToUpper f3) vc))
  | "WH" =>
      if fields.length < 4 then Outcome.fails (.invalidFieldCount 4 fields.length) else
      Outcome.bind (index fields 3) fun f3 =>
      Outcome.ok (clientQueryMessageNew first f1 (ClientQueryType.whoHas (strToUpper f3)))
  | "TA" =>
      if fields.length < 5 then Outcome.fails (.invalidFieldCount 5 fields.length) else
      Outcome.bind (index fields 3) fun f3 =>
      Outcome.bind (index fields 4) fun f4 =>
      Outcome.bind (parsed (parseLevel f4) (.invalidLevel f4)) fun level =>
      Outcome.ok (clientQueryMessageNew first f1
        (ClientQueryType.setTempAltitude (strToUpper f3) level))
  | "HT" =>
      if fields.length < 5 then Outcome.fails (.invalidFieldCount 5 fields.length) else
      Outcome.bind (index fields 3) fun f3 =>
      Outcome.bind (index fields 4) fun f4 =>
      Outcome.ok (clientQueryMessageNew first f1
        (ClientQueryType.acceptHandoff (strToUpper f3) (strToUpper f4)))
  | "DR" =>
      if fields.length < 4 then Outcome.fails (.invalidFieldCount 4 fields.length) else
      Outcome.bind (index fields 3) fun f3 =>
      Outcome.ok (clientQueryMessageNew first f1 (ClientQueryType.dropTrack (strToUpper f3)))
  | "CAPS" => Outcome.ok (clientQueryMessageNew first f1 ClientQueryType.capabilities)
  | "IT" =>
      if fields.length < 4 then Outcome.fails (.invalidFieldCount 4 fields.length) else
      Outcome.bind (index fields 3) fun f3 =>
      Outcome.ok (clientQueryMessageNew first f1 (ClientQueryType.initiateTrack (strToUpper f3)))
  | "HI" => Outcome.ok (clientQueryMessageNew first f1 ClientQueryType.cancelRequestRelief)
  | "INF" => Outcome.ok (clientQueryMessageNew first f1 ClientQueryType.inf)
  | "SIMTIME" =>
      if fields.length < 4 then Outcome.fails (.invalidFieldCount 4 fields.length) else
      Outcome.bind (index fields 3) fun f3 =>
      Outcome.bind (parsed (parseSimTime f3)
        (.invalidTime ("SIMTIME uses incorrect format: " ++ f3))) fun time =>
      Outcome.ok (clientQueryMessageNew first f1 (ClientQueryType.simTime time))
  | "GD" =>
      if fields.length < 5 then Outcome.fails (.invalidFieldCount 5 fields.length) else
      Outcome.bind (index fields 4) fun f4 =>
      Outcome.ok (clientQueryMessageNew first f1
        (ClientQueryType.setGlobalData (strToUpper f4) f4))
  | _ => Outcome.fails (.unknownMessageType f2)

/-- ClientResponseType from enums (consumed by ClientQueryResponseMessage); the
variant set and payloads are taken from the construction sites in
ClientQueryResponseMessage::try_from (lines 2291-2390). -/
inductive ClientResponseType where
  | com1Freq (frequency : RadioFrequency)
  | atis (atis_line : AtisLine)
  | realName (name : String) (sector_file : String) (rating : Nat)
  | publicIP (ip_address : String)
  | server (hostname_or_ip_address : String)
  | isValidATC (atc_callsign : String) (valid_atc : Bool)
  | capabilities (capabilities : List ClientCapability)
deriving DecidableEq, Repr

/-- ClientQueryResponseMessage (lines 2278-2284). -/
structure ClientQueryResponseMessage where
  «from» : String
  «to» : String
  response_type : ClientResponseType
deriving DecidableEq, Repr

/-- ClientQueryResponseMessage::new (lines 2391-2398). -/
def clientQueryResponseMessageNew (f t : String) (response_type : ClientResponseType) :
    ClientQueryResponseMessage :=
  { «from» := (strToUpper f), «to» := (strToUpper t), response_type }

/-- ClientQueryResponseMessage::try_from (lines 2291-2390): at least 4 fields,
dispatch on field 2. Note the RN arm re-checks only a minimum of 4 fields and
then indexes `fields[4]` and `fields[5]` unconditionally — a panic when 4 or 5
fields are present. -/
def clientQueryResponseTryFrom (fields : List String) :
    Outcome ClientQueryResponseMessage :=
  if fields.length < 4 then Outcome.fails (.invalidFieldCount 4 fields.length) else
  Outcome.bind (index fields 0) fun f0 =>
  let from_ := strDrop 3 f0
  Outcome.bind (index fields 1) fun to_ =>
  Outcome.bind (index fields 2) fun f2 =>
  Outcome.bind
    (match f2 with
     | "C?" =>
         Outcome.bind (index fields 3) fun f3 =>
         Outcome.bind (parsed (radioFrequencyFromHumanReadable f3) (.invalidFrequency f3))
           fun freq =>
         Outcome.ok (ClientResponseType.com1Freq freq)
     | "ATIS" =>
         if fields.length < 5 then Outcome.fails (.invalidFieldCount 5 fields.length) else
         Outcome.bind (index fields 3) fun f3 =>
         (match f3 with
          | "V" =>
              Outcome.bind (index fields 4) fun f4 =>
              Outcome.ok (ClientResponseType.atis (AtisLine.voiceServer f4))
          | "T" =>
              let message := assembleWithColons (fields.drop 4)
              Outcome.ok (ClientResponseType.atis (AtisLine.textLine message))
          | "Z" =>
              Outcome.bind (index fields 4) fun f4 =>
              let logoffTime := if f4.endsWith "z" then String.mk f4.data.dropLast else f4
              Outcome.ok (ClientResponseType.atis (AtisLine.logoffTime (parseNat logoffTime)))
          | "E" =>
              Outcome.bind (index fields 4) fun f4 =>
              Outcome.bind (parsed (parseNat f4) (.invalidATISLine f4)) fun lineCount =>
              Outcome.ok (ClientResponseType.atis (AtisLine.endMarker lineCount))
          | _ => Outcome.fails (.invalidATISLine f3))
     | "RN" =>
         if fields.length < 4 then Outcome.fails (.invalidFieldCount 4 fields.length) else
         Outcome.bind (index fields 3) fun f3 =>
         let name := f3
         Outcome.bind (index fields 4) fun f4 =>
         let sector_file := f4
         Outcome.bind (index fields 5) fun f5 =>
         Outcome.bind (parsed (parseNatLe 255 f5) (.invalidRating f5)) fun rating =>
         Outcome.ok (ClientResponseType.realName name sector_file rating)
     | "IP" =>
         (match fields.get? 3 with
          | none => Outcome.fails (.invalidFieldCount 4 fields.length)
          | some f3 => Outcome.ok (ClientResponseType.publicIP f3))
     | "SV" =>
         (match fields.get? 3 with
          | none => Outcome.fails (.invalidFieldCount 4 fields.length)
          | some f3 => Outcome.ok (ClientResponseType.server f3))
     | "ATC" =>
         if fields.length < 4 then Outcome.fails (.invalidFieldCount 4 fields.length) else
         Outcome.bind (index fields 3) fun f3 =>
         Outcome.bind
           (if (strToUpper f3) = "Y" then Outcome.ok true
            else if (strToUpper f3) = "N" then Outcome.ok false
            else Outcome.fails (.invalidValidAtcStatus f3)) fun valid_atc =>
         Outcome.bind (index fields 1) fun f1 =>
         let atc_callsign := (strToUpper ((fields.get? 4).getD f1))
         Outcome.ok (ClientResponseType.isValidATC atc_callsign valid_atc)
     | "CAPS" =>
         if fields.length < 4 then Outcome.fails (.invalidFieldCount 4 fields.length) else
         Outcome.ok (ClientResponseType.capabilities (readCapabilities (fields.drop 3)))
     | _ => Outcome.fails (.unknownMessageType f2)) fun response_type =>
  Outcome.ok (clientQueryResponseMessageNew from_ to_ response_type)

/-- SharedStateType from enums (consumed by SharedStateMessage); the variant set
and payloads are taken from the construction sites in SharedStateMessage::try_from
(lines 2538-2721). -/
inductive SharedStateType where
  | version
  | id
  | di
  | iHave (aircraft_callsign : String)
  | scratchPad (aircraft_callsign : String) (contents : ScratchPad)
  | globalData (aircraft_callsign : String) (contents : String)
  | tempAltitude (aircraft_callsign : String) (level : Level)
  | finalAltitude (aircraft_callsign : String) (level : Level)
  | voiceType (aircraft_callsign : String) (voice_capability : VoiceCapability)
  | beaconCode (aircraft_callsign : String) (code : TransponderCode)
  | handoffCancel (aircraft_callsign : String)
  | pointOut (aircraft_callsign : String)
  | pushToDepartureList (aircraft_callsign : String)
  | flightStrip (aircraft_callsign : String) (format : Option Int)
      (contents : Option (List String))
  | landLine (landline_type : LandLineType) (landline_command : LandLineCommand)
deriving DecidableEq, Repr

/-- SharedStateMessage (lines 2521-2527). -/
structure SharedStateMessage where
  «from» : String
  «to» : String
  shared_state_type : SharedStateType
deriving DecidableEq, Repr

/-- SharedStateMessage::new (lines 2722-2729). -/
def sharedStateMessageNew (f t : String) (shared_state_type : SharedStateType) :
    SharedStateMessage :=
  { «from» := (strToUpper f), «to» := (strToUpper t), shared_state_type }

/-- SharedStateMessage::try_from (lines 2538-2721): at least 4 fields, dispatch
on field 3. The BC arm re-checks only a minimum of 4 fields and then indexes
`fields[5]` and `fields[4]` unconditionally — a panic when 4 or 5 fields are
present. Land-line sub-codes resolve the (channel-type, command) pair, requiring
a valid ip and port only for Request and Approve. -/
def sharedStateTryFrom (fields : List String) : Outcome SharedStateMessage :=
  if fields.length < 4 then Outcome.fails (.invalidFieldCount 4 fields.length) else
  Outcome.bind (index fields 0) fun f0 =>
  let from_ := strDrop 3 f0
  Outcome.bind (index fields 1) fun to_ =>
  Outcome.bind (index fields 3) fun f3 =>
  Outcome.bind
    (match f3 with
     | "VER" => Outcome.ok SharedStateType.version
     | "ID" => Outcome.ok SharedStateType.id
     | "DI" => Outcome.ok SharedStateType.di
     | "IH" =>
         (match fields.get? 4 with
          | none => Outcome.fails (.invalidFieldCount 5 fields.length)
          | some f4 => Outcome.ok (SharedStateType.iHave (strToUpper f4)))
     | "SC" =>
         if fields.length < 6 then Outcome.fails (.invalidFieldCount 6 fields.length) else
         Outcome.bind (index fields 5) fun f5 =>
         Outcome.bind (parsed (parseScratchPad f5) (.invalidSharedStateType f5))
           fun contents =>
         Outcome.bind (index fields 4) fun f4 =>
         Outcome.ok (SharedStateType.scratchPad (strToUpper f4) contents)
     | "GD" =>
         if fields.length < 6 then Outcome.fails (.invalidFieldCount 6 fields.length) else
         Outcome.bind (index fields 4) fun f4 =>
         Outcome.bind (index fields 5) fun f5 =>
         Outcome.ok (SharedStateType.globalData (strToUpper f4) f5)
     | "TA" =>
         if fields.length < 6 then Outcome.fails (.invalidFieldCount 6 fields.length) else
         Outcome.bind (index fields 5) fun f5 =>
         Outcome.bind (parsed (parseLevel f5) (.invalidLevel f5)) fun level =>
         Outcome.bind (index fields 4) fun f4 =>
         Outcome.ok (SharedStateType.tempAltitude (strToUpper f4) level)
     | "FA" =>
         if fields.length < 6 then Outcome.fails (.invalidFieldCount 6 fields.length) else
         Outcome.bind (index fields 5) fun f5 =>
         Outcome.bind (parsed (parseLevel f5) (.invalidLevel f5)) fun level =>
         Outcome.bind (index fields 4) fun f4 =>
         Outcome.ok (SharedStateType.finalAltitude (strToUpper f4) level)
     | "VT" =>
         if fields.length < 6 then Outcome.fails (.invalidFieldCount 6 fields.length) else
         Outcome.bind (index fields 5) fun f5 =>
         Outcome.bind (parsed (parseVoiceCapability f5) (.invalidVoiceCapability f5))
           fun vc =>
         Outcome.bind (index fields 4) fun f4 =>
         Outcome.ok (SharedStateType.voiceType (strToUpper f4) vc)
     | "BC" =>
         if fields.length < 4 then Outcome.fails (.invalidFieldCount 4 fields.length) else
         Outcome.bind (index fields 5) fun f5 =>
         Outcome.bind (parsed (parseTransponderCode f5) (.invalidTransponderCode f5))
           fun code =>
         Outcome.bind (index fields 4) fun f4 =>
         Outcome.ok (SharedStateType.beaconCode (strToUpper f4) code)
     | "HC" =>
         (match fields.get? 4 with
          | none => Outcome.fails (.invalidFieldCount 5 fields.length)
          | some f4 => Outcome.ok (SharedStateType.handoffCancel (strToUpper f4)))
     | "PT" =>
         (match fields.get? 4 with
          | none => Outcome.fails (.invalidFieldCount 5 fields.length)
          | some f4 => Outcome.ok (SharedStateType.pointOut (strToUpper f4)))
     | "DP" =>
         (match fields.get? 4 with
          | none => Outcome.fails (.invalidFieldCount 5 fields.length)
          | some f4 => Outcome.ok (SharedStateType.pushToDepartureList (strToUpper f4)))
     | "ST" =>
         (match fields.get? 4 with
          | none => Outcome.fails (.invalidFieldCount 5 fields.length)
          | some f4 =>
              let format := (fields.get? 5).bind parseInt
              let contents : Option (List String) :=
                if 6 ≤ fields.length then some (fields.drop 6) else none
              Outcome.ok (SharedStateType.flightStrip (strToUpper f4) format contents))
     | _ =>
         if f3 = "IC" ∨ f3 = "IK" ∨ f3 = "IB" ∨ f3 = "EC" ∨ f3 = "OV" ∨ f3 = "OK" ∨
            f3 = "OB" ∨ f3 = "EO" ∨ f3 = "MN" ∨ f3 = "MK" ∨ f3 = "MB" ∨ f3 = "EM" then
           let ipRes : Outcome (Nat × Nat × Nat × Nat) :=
             match (fields.get? 4).bind parseIpv4 with
             | some ip => Outcome.ok ip
             | none => Outcome.fails (.invalidIPAddress ((fields.get? 4).getD ""))
           let portRes : Outcome Nat :=
             match (fields.get? 5).bind (parseNatLe 65535) with
             | some p => Outcome.ok p
             | none => Outcome.fails (.invalidPort ((fields.get? 5).getD ""))
           if f3 = "IC" then
             Outcome.bind ipRes fun ip => Outcome.bind portRes fun port =>
             Outcome.ok (SharedStateType.landLine LandLineType.intercom
               (LandLineCommand.request ip port))
           else if f3 = "IK" then
             Outcome.bind ipRes fun ip => Outcome.bind portRes fun port =>
             Outcome.ok (SharedStateType.landLine LandLineType.intercom
               (LandLineCommand.approve ip port))
           else if f3 = "IB" then
             Outcome.ok (SharedStateType.landLine LandLineType.intercom
               LandLineCommand.reject)
           else if f3 = "EC" then
             Outcome.ok (SharedStateType.landLine LandLineType.intercom
               LandLineCommand.endCommand)
           else if f3 = "OV" then
             Outcome.bind ipRes fun ip => Outcome.bind portRes fun port =>
             Outcome.ok (SharedStateType.landLine LandLineType.override
               (LandLineCommand.request ip port))
           else if f3 = "OK" then
             Outcome.bind ipRes fun ip => Outcome.bind portRes fun port =>
             Outcome.ok (SharedStateType.landLine LandLineType.override
               (LandLineCommand.approve ip port))
           else if f3 = "OB" then
             Outcome.ok (SharedStateType.landLine LandLineType.override
               LandLineCommand.reject)
           else if f3 = "EO" then
             Outcome.ok (SharedStateType.landLine LandLineType.override
               LandLineCommand.endCommand)
           else if f3 = "MN" then
             Outcome.bind ipRes fun ip => Outcome.bind portRes fun port =>
             Outcome.ok (SharedStateType.landLine LandLineType.monitor
               (LandLineCommand.request ip port))
           else if f3 = "MK" then
             Outcome.bind ipRes fun ip => Outcome.bind portRes fun port =>
             Outcome.ok (SharedStateType.landLine LandLineType.monitor
               (LandLineCommand.approve ip port))
           else if f3 = "MB" then
             Outcome.ok (SharedStateType.landLine LandLineType.monitor
               LandLineCommand.reject)
           else
             Outcome.ok (SharedStateType.landLine LandLineType.monitor
               LandLineCommand.endCommand)
         else Outcome.fails (.invalidSharedStateType f3)) fun shared_state_type =>
  Outcome.ok (sharedStateMessageNew from_ to_ shared_state_type)

/-! Helper lemmas about the embedding combinators. -/

theorem Outcome.bind_ok_elim {α β : Type} {o : Outcome α} {f : α → Outcome β} {b : β}
    (h : Outcome.bind o f = Outcome.ok b) : ∃ a, o = Outcome.ok a ∧ f a = Outcome.ok b := by
  cases o with
  | panics => exact absurd h (by simp [Outcome.bind])
  | fails e => exact absurd h (by simp [Outcome.bind])
  | ok a => exact ⟨a, rfl, h⟩

theorem parsed_ok {α : Type} {o : Option α} {e : FsdMessageParseError} {a : α}
    (h : parsed o e = Outcome.ok a) : o = some a := by
  cases o with
  | none => exact absurd h (by simp [parsed])
  | some x => simpa [parsed] using h

theorem index_ok {fields : List String} {i : Nat} {s : String}
    (h : index fields i = Outcome.ok s) : fields.get? i = some s := by
  unfold index at h
  cases hg : fields.get? i with
  | none => rw [hg] at h; exact absurd h (by simp)
  | some x => rw [hg] at h; cases h; rfl

theorem data_append (a b : String) : (a ++ b).data = a.data ++ b.data := rfl

theorem qAdd_eq (a b : ℚ) : qAdd a b = a + b := (Rat.add_def' a b).symm

theorem qSub_eq (a b : ℚ) : qSub a b = a - b := (Rat.sub_def' a b).symm

theorem mk_data (s : String) : String.mk s.data = s := rfl

theorem colonFree_append {a b : String} (ha : colonFree a) (hb : colonFree b) :
    colonFree (a ++ b) := by
  unfold colonFree at *
  rw [data_append]
  intro h
  rcases List.mem_append.mp h with h | h
  · exact ha h
  · exact hb h

theorem splitFieldsAux_last (a acc : List Char) (h : ':' ∉ a) :
    splitFieldsAux a acc = [String.mk (acc.reverse ++ a)] := by
  induction a generalizing acc with
  | nil => simp [splitFieldsAux]
  | cons c cs ih =>
      have hc : c ≠ ':' := fun hc => h (hc ▸ List.mem_cons_self c cs)
      have hcs : ':' ∉ cs := fun hm => h (List.mem_cons_of_mem c hm)
      simp only [splitFieldsAux, if_neg hc, ih (c :: acc) hcs]
      simp

theorem splitFieldsAux_break (a rest acc : List Char) (h : ':' ∉ a) :
    splitFieldsAux (a ++ ':' :: rest) acc =
      String.mk (acc.reverse ++ a) :: splitFieldsAux rest [] := by
  induction a generalizing acc with
  | nil => simp [splitFieldsAux]
  | cons c cs ih =>
      have hc : c ≠ ':' := fun hc => h (hc ▸ List.mem_cons_self c cs)
      have hcs : ':' ∉ cs := fun hm => h (List.mem_cons_of_mem c hm)
      simp only [List.cons_append, splitFieldsAux, if_neg hc, List.append_eq]
      rw [ih (c :: acc) hcs]
      simp

/-- Splitting a line that starts with a colon-free field followed by a colon. -/
theorem splitFields_cons (a c : String) (ha : colonFree a) :
    splitFields (a ++ ":" ++ c) = a :: splitFields c := by
  unfold splitFields
  have h : (a ++ ":" ++ c).data = a.data ++ ':' :: c.data := by
    show a.data ++ [':'] ++ c.data = a.data ++ ':' :: c.data
    simp
  rw [h, splitFieldsAux_break a.data c.data [] ha]
  simp [mk_data]

/-- Splitting a colon-free line yields exactly that line. -/
theorem splitFields_single (a : String) (ha : colonFree a) : splitFields a = [a] := by
  unfold splitFields
  rw [splitFieldsAux_last a.data [] ha]
  simp [mk_data]

theorem joinColons_cons_append (a x : String) (xs : List String) :
    joinColons ((a ++ ":" ++ x) :: xs) = a ++ ":" ++ joinColons (x :: xs) := by
  cases xs with
  | nil => rfl
  | cons y ys =>
      show a ++ ":" ++ x ++ ":" ++ joinColons (y :: ys) =
        a ++ ":" ++ (x ++ ":" ++ joinColons (y :: ys))
      simp only [String.append_assoc]

theorem pushTail_eq_joinColons (rest : List String) (acc : String) :
    pushTail acc rest = joinColons (acc :: rest) := by
  induction rest generalizing acc with
  | nil => rfl
  | cons x xs ih =>
      show pushTail (acc ++ ":" ++ x) xs = _
      rw [ih (acc ++ ":" ++ x), joinColons_cons_append]
      rfl

/-! Definitions used by the claim theorems. -/

/-- The twelve land-line sub-codes of SharedStateMessage::try_from, in source
order (lines 2636-2711). -/
def landLineCodes : List String :=
  ["IC", "IK", "IB", "EC", "OV", "OK", "OB", "EO", "MN", "MK", "MB", "EM"]

/-- Projection of a shared-state parse outcome to the (channel-type, command)
pair of a land-line message, forgetting the ip/port payload. -/
def landLinePairOfOutcome (o : Outcome SharedStateMessage) :
    Option (LandLineType × LandLineCommandKind) :=
  match o with
  | Outcome.ok m =>
      match m.shared_state_type with
      | SharedStateType.landLine t c => some (t, c.kind)
      | _ => none
  | _ => none

/-- The (channel-type, command) pairs produced by parsing each of the twelve
land-line codes with a valid ip and port. -/
def landLinePairs : List (LandLineType × LandLineCommandKind) :=
  (landLineCodes.map (fun code => landLinePairOfOutcome
    (sharedStateTryFrom ["#PCA", "B", "CCP", code, "10.0.0.1", "3290"]))).reduceOption

/-- Error kinds whose format-then-parse cycle can restore the message: any
carried callsign/flight-plan/weather-station payload must be empty (the
formatter never writes it), and an Other message must be colon-free. -/
def fsdErrorPayloadBlank : FsdError → Prop
  | FsdError.noSuchCallsign s => s = ""
  | FsdError.noFlightPlan s => s = ""
  | FsdError.noWeatherProfile s => s = ""
  | FsdError.other message => colonFree message
  | _ => True

instance (e : FsdError) : Decidable (fsdErrorPayloadBlank e) :=
  match e with
  | FsdError.noSuchCallsign s => inferInstanceAs (Decidable (s = ""))
  | FsdError.noFlightPlan s => inferInstanceAs (Decidable (s = ""))
  | FsdError.noWeatherProfile s => inferInstanceAs (Decidable (s = ""))
  | FsdError.other message => inferInstanceAs (Decidable (colonFree message))
  | FsdError.callsignInUse => inferInstanceAs (Decidable True)
  | FsdError.invalidCallsign => inferInstanceAs (Decidable True)
  | FsdError.alreadyRegistered => inferInstanceAs (Decidable True)
  | FsdError.syntaxError => inferInstanceAs (Decidable True)
  | FsdError.invalidCidPassword => inferInstanceAs (Decidable True)
  | FsdError.invalidProtocolRevision => inferInstanceAs (Decidable True)
  | FsdError.requestedLevelTooHigh => inferInstanceAs (Decidable True)
  | FsdError.serverFull => inferInstanceAs (Decidable True)
  | FsdError.certificateSuspended => inferInstanceAs (Decidable True)
  | FsdError.invalidControl => inferInstanceAs (Decidable True)
  | FsdError.invalidPositionForRating => inferInstanceAs (Decidable True)
  | FsdError.unauthorisedClient => inferInstanceAs (Decidable True)
  | FsdError.authTimeOut => inferInstanceAs (Decidable True)

/-! Claim theorems. -/

/-- C1: the spec promises that every parse returns either a fully valid message
or exactly one error value — never aborting — on any field sequence that passes
the variant's own field-count check. The code breaks this: with exactly 4 fields
and a non-numeric latitude or longitude, the secondary-visibility-centre parser
builds its error from `fields[5]`, an out-of-bounds index (panic); the
client-query-response RN arm (4 or 5 fields) reads `fields[4]`/`fields[5]`
unconditionally; the shared-state BC arm (4 or 5 fields) reads `fields[5]`. All
six inputs below pass the respective count checks yet panic instead of
returning an error value. -/
theorem c1_parsers_panic_on_inputs_passing_their_count_check :
    atcSecondaryVisCentreTryFrom ["'AB", "1", "x", "1.0"] = Outcome.panics ∧
    atcSecondaryVisCentreTryFrom ["'AB", "1", "1.0", "x"] = Outcome.panics ∧
    clientQueryResponseTryFrom ["$CRA", "B", "RN", "Name"] = Outcome.panics ∧
    clientQueryResponseTryFrom ["$CRA", "B", "RN", "Name", "sector"] = Outcome.panics ∧
    sharedStateTryFrom ["#PCA", "B", "CCP", "BC"] = Outcome.panics ∧
    sharedStateTryFrom ["#PCA", "B", "CCP", "BC", "N123"] = Outcome.panics := by
  decide

/-- C2: the spec states every sender/recipient identifier is stored upper-case
regardless of input case, at construction, in particular by
PlaneInfoRequestMessage::new. The code breaks this for exactly that constructor:
PlaneInfoRequestMessage::new (and hence its try_from) stores both identifiers
verbatim, while every sibling constructor (e.g. AtcRegisterMessage::new)
upper-cases. -/
theorem c2_plane_info_request_skips_uppercasing :
    (planeInfoRequestMessageNew "n123ab" "egph_twr").«from» = "n123ab" ∧
    (planeInfoRequestMessageNew "n123ab" "egph_twr").«to» = "egph_twr" ∧
    (strToUpper "n123ab") = "N123AB" ∧
    (strToUpper "egph_twr") = "EGPH_TWR" ∧
    planeInfoRequestTryFrom ["#SBn123ab", "egph_twr", "PIR"] =
      Outcome.ok { «from» := "n123ab", «to» := "egph_twr" } ∧
    (atcRegisterMessageNew "egph_m_app" "server" "Caspian" "cid" "pw" 4 9).«from» =
      "EGPH_M_APP" := by
  decide

/-- C9: the spec says the ATC-register protocol-revision field defaults (to code
9) when absent, so some 6-field line should parse. The code's minimum-field
check requires 7 fields, so every 6-field line is rejected with a count-mismatch
error and the `unwrap_or("9")` default for field 6 is unreachable; with 7 fields
the field is always present. -/
theorem c9_atc_register_six_field_line_rejected :
    atcRegisterTryFrom ["#AAEGPH_M_APP", "SERVER", "Caspian", "newcert", "test", "4"] =
      Outcome.fails (FsdMessageParseError.invalidFieldCount 7 6) ∧
    atcRegisterTryFrom ["#AAEGPH_M_APP", "SERVER", "Caspian", "newcert", "test", "4", "9"] =
      Outcome.ok (atcRegisterMessageNew "EGPH_M_APP" "SERVER" "Caspian" "newcert"
        "test" 4 9) := by
  decide

/-- C7: the twelve land-line sub-codes decompose under shared-state parsing into
exactly the cross product of the 3 channel types and 4 commands: the pairs
produced are, in source order, the full 3×4 product, each code yields exactly
one pair, no two codes yield the same pair, every pair is reached, and the
Request/Approve commands carry the parsed ip and port. -/
theorem c7_land_line_codes_cross_product :
    landLinePairs =
      [(LandLineType.intercom, LandLineCommandKind.requestKind),
       (LandLineType.intercom, LandLineCommandKind.approveKind),
       (LandLineType.intercom, LandLineCommandKind.rejectKind),
       (LandLineType.intercom, LandLineCommandKind.endKind),
       (LandLineType.override, LandLineCommandKind.requestKind),
       (LandLineType.override, LandLineCommandKind.approveKind),
       (LandLineType.override, LandLineCommandKind.rejectKind),
       (LandLineType.override, LandLineCommandKind.endKind),
       (LandLineType.monitor, LandLineCommandKind.requestKind),
       (LandLineType.monitor, LandLineCommandKind.approveKind),
       (LandLineType.monitor, LandLineCommandKind.rejectKind),
       (LandLineType.monitor, LandLineCommandKind.endKind)] ∧
    landLinePairs.Nodup ∧
    landLinePairs.length = 12 ∧
    (∀ t ∈ [LandLineType.intercom, LandLineType.override, LandLineType.monitor],
     ∀ k ∈ [LandLineCommandKind.requestKind, LandLineCommandKind.approveKind,
            LandLineCommandKind.rejectKind, LandLineCommandKind.endKind],
      (t, k) ∈ landLinePairs) ∧
    sharedStateTryFrom ["#PCA", "B", "CCP", "IC", "10.0.0.1", "3290"] =
      Outcome.ok (SharedStateMessage.mk "A" "B" (SharedStateType.landLine
        LandLineType.intercom (LandLineCommand.request (10, 0, 0, 1) 3290))) ∧
    sharedStateTryFrom ["#PCA", "B", "CCP", "EM"] =
      Outcome.ok (SharedStateMessage.mk "A" "B" (SharedStateType.landLine
        LandLineType.monitor LandLineCommand.endCommand)) := by
  decide

/-- C8: tokenizing and parsing the line `#TMSERVER:ALL:Hello:World` yields a
text message from SERVER to ALL whose body is exactly `Hello:World`; in
general, for every text-message field sequence of three or more fields the body
is fields 2.. re-joined with ':' in order. -/
theorem c8_text_message_tail_rejoined :
    textMessageTryFrom (splitFields "#TMSERVER:ALL:Hello:World") =
      Outcome.ok (TextMessage.mk "SERVER" "ALL" "Hello:World") ∧
    ∀ a b c : String, ∀ rest : List String,
      textMessageTryFrom (a :: b :: c :: rest) =
        Outcome.ok (textMessageNew (strDrop 3 a) b (joinColons (c :: rest))) := by
  constructor
  · decide
  · intro a b c rest
    unfold textMessageTryFrom
    rw [if_neg (by simp)]
    simp only [index, List.get?, Outcome.bind, List.drop, pushTail_eq_joinColons]

/-- C10: METAR request and response parsing never inspect the literal token
slot: any field sequence of at least 4 fields parses successfully with field 3
(upper-cased) as the station/metar text, regardless of field 2; formatting
always emits the literal METAR in that slot, so parse accepts strictly more
inputs than format produces — witnessed by an accepted input whose field 2 is
not METAR. -/
theorem c10_metar_parse_ignores_literal_token :
    (∀ a b c d : String, ∀ rest : List String,
      metarRequestTryFrom (a :: b :: c :: d :: rest) =
        Outcome.ok (metarRequestMessageNew (strDrop 3 a) b d)) ∧
    (∀ a b c d : String, ∀ rest : List String,
      metarResponseTryFrom (a :: b :: c :: d :: rest) =
        Outcome.ok (metarResponseMessageNew (strDrop 3 a) b d)) ∧
    (∀ m : MetarRequestMessage,
      metarRequestDisplay m = "$AX" ++ m.«from» ++ ":" ++ m.«to» ++ ":METAR:" ++ m.station) ∧
    metarRequestTryFrom ["$AXA", "B", "XXXX", "egll"] =
      Outcome.ok (MetarRequestMessage.mk "A" "B" "EGLL") ∧
    metarRequestDisplay (MetarRequestMessage.mk "A" "B" "EGLL") = "$AXA:B:METAR:EGLL" := by
  refine ⟨?_, ?_, fun m => rfl, by decide, by decide⟩
  · intro a b c d rest
    unfold metarRequestTryFrom
    rw [if_neg (by simp)]
    simp only [index, List.get?, Outcome.bind]
  · intro a b c d rest
    unfold metarResponseTryFrom
    rw [if_neg (by simp)]
    simp only [index, List.get?, Outcome.bind]

/-- C4 counterexample: a client-query IPC line with 4 fields is below the IPC
minimum of 6, and the code reports the count-mismatch error
InvalidFieldCount(6, 3) — the actual count is hardcoded to 3 and does not equal
the real number of fields supplied (4), refuting the claim that the reported
actual count is always correct. -/
theorem c4_ipc_reports_wrong_actual_count :
    clientQueryTryFrom ["$CQSERVER", "N194Q", "IPC", "W"] =
      Outcome.fails (FsdMessageParseError.invalidFieldCount 6 3) ∧
    (["$CQSERVER", "N194Q", "IPC", "W"] : List String).length = 4 := by
  decide

/-- C4 (amended): for every embedded variant, a field count below the declared
minimum (or different from the exact count, for flight plan and amendment)
yields the count-mismatch error with the correct expected count and the real
actual count and never another error kind — except the client-query IPC
sub-type, which with 3, 4 or 5 fields always reports InvalidFieldCount(6, 3),
its actual count hardcoded to 3. -/
theorem c4_count_mismatch_reporting :
    (∀ fields : List String, fields.length ≠ 17 →
      flightPlanTryFrom fields =
        Outcome.fails (FsdMessageParseError.invalidFieldCount 17 fields.length)) ∧
    (∀ fields : List String, fields.length ≠ 18 →
      flightPlanAmendmentTryFrom fields =
        Outcome.fails (FsdMessageParseError.invalidFieldCount 18 fields.length)) ∧
    (∀ fields : List String, fields.length < 7 →
      atcRegisterTryFrom fields =
        Outcome.fails (FsdMessageParseError.invalidFieldCount 7 fields.length)) ∧
    (∀ fields : List String, fields.length < 7 →
      atcPositionUpdateTryFrom fields =
        Outcome.fails (FsdMessageParseError.invalidFieldCount 7 fields.length)) ∧
    (∀ fields : List String, fields.length < 4 →
      atcSecondaryVisCentreTryFrom fields =
        Outcome.fails (FsdMessageParseError.invalidFieldCount 4 fields.length)) ∧
    (∀ fields : List String, fields.length < 10 →
      pilotPositionUpdateTryFrom fields =
        Outcome.fails (FsdMessageParseError.invalidFieldCount 10 fields.length)) ∧
    (∀ fields : List String, fields.length < 3 →
      textMessageTryFrom fields =
        Outcome.fails (FsdMessageParseError.invalidFieldCount 3 fields.length)) ∧
    (∀ fields : List String, fields.length < 4 →
      metarRequestTryFrom fields =
        Outcome.fails (FsdMessageParseError.invalidFieldCount 4 fields.length)) ∧
    (∀ fields : List String, fields.length < 4 →
      metarResponseTryFrom fields =
        Outcome.fails (FsdMessageParseError.invalidFieldCount 4 fields.length)) ∧
    (∀ fields : List String, fields.length < 3 →
      planeInfoRequestTryFrom fields =
        Outcome.fails (FsdMessageParseError.invalidFieldCount 3 fields.length)) ∧
    (∀ fields : List String, fields.length < 5 →
      fsdErrorTryFrom fields =
        Outcome.fails (FsdMessageParseError.invalidFieldCount 5 fields.length)) ∧
    (∀ fields : List String, fields.length < 3 →
      clientQueryTryFrom fields =
        Outcome.fails (FsdMessageParseError.invalidFieldCount 3 fields.length)) ∧
    (∀ fields : List String, fields.length < 4 →
      clientQueryResponseTryFrom fields =
        Outcome.fails (FsdMessageParseError.invalidFieldCount 4 fields.length)) ∧
    (∀ fields : List String, fields.length < 4 →
      sharedStateTryFrom fields =
        Outcome.fails (FsdMessageParseError.invalidFieldCount 4 fields.length)) ∧
    (∀ a b : String, clientQueryTryFrom [a, b, "IPC"] =
      Outcome.fails (FsdMessageParseError.invalidFieldCount 6 3)) ∧
    (∀ a b d : String, clientQueryTryFrom [a, b, "IPC", d] =
      Outcome.fails (FsdMessageParseError.invalidFieldCount 6 3)) ∧
    (∀ a b d e : String, clientQueryTryFrom [a, b, "IPC", d, e] =
      Outcome.fails (FsdMessageParseError.invalidFieldCount 6 3)) := by
  refine ⟨?_, ?_, ?_, ?_, ?_, ?_, ?_, ?_, ?_, ?_, ?_, ?_, ?_, ?_, ?_, ?_, ?_⟩
  · intro fields h; unfold flightPlanTryFrom; rw [if_pos h]
  · intro fields h; unfold flightPlanAmendmentTryFrom; rw [if_pos h]
  · intro fields h; unfold atcRegisterTryFrom; rw [if_pos h]
  · intro fields h; unfold atcPositionUpdateTryFrom; rw [if_pos h]
  · intro fields h; unfold atcSecondaryVisCentreTryFrom; rw [if_pos h]
  · intro fields h; unfold pilotPositionUpdateTryFrom; rw [if_pos h]
  · intro fields h; unfold textMessageTryFrom; rw [if_pos h]
  · intro fields h; unfold metarRequestTryFrom; rw [if_pos h]
  · intro fields h; unfold metarResponseTryFrom; rw [if_pos h]
  · intro fields h; unfold planeInfoRequestTryFrom; rw [if_pos h]
  · intro fields h; unfold fsdErrorTryFrom; rw [if_pos h]
  · intro fields h; unfold clientQueryTryFrom; rw [if_pos h]
  · intro fields h; unfold clientQueryResponseTryFrom; rw [if_pos h]
  · intro fields h; unfold sharedStateTryFrom; rw [if_pos h]
  · intro a b; rfl
  · intro a b d; rfl
  · intro a b d e; rfl

/-- C4 witness: the flight-plan exact-count conjunct applied at a concrete
1-field input. -/
theorem c4_count_mismatch_reporting_witness :
    flightPlanTryFrom ["$FPA"] =
      Outcome.fails (FsdMessageParseError.invalidFieldCount 17 1) :=
  c4_count_mismatch_reporting.1 ["$FPA"] (by decide)

/-- C5 counterexample: the claim says no field other than the ATC-position
elevation defaults on parse failure, but the shared-state flight-strip (ST) arm
does the same: its format field `xx` fails integer parsing (`parseInt "xx" =
none`), yet the message parses successfully with format `none` instead of
erroring. -/
theorem c5_flight_strip_format_field_also_defaults :
    parseInt "xx" = none ∧
    sharedStateTryFrom ["#PCA", "B", "CCP", "ST", "N123", "xx"] =
      Outcome.ok (SharedStateMessage.mk "A" "B"
        (SharedStateType.flightStrip "N123" none (some []))) := by
  decide

/-- C5 (amended): within the ATC position update the lenient default is real:
every successful parse stores as elevation the integer parse of field 7
(textually defaulted to "0" when absent) with integer default 0 when that parse
fails; an unparsable or absent elevation never causes an error, witnessed on a
concrete valid prefix for every possible trailing field. But the same
swallow-the-failure pattern also appears in the shared-state flight-strip
format field, so ATC elevation is not the only such field. -/
theorem c5_atc_elevation_lenient_default :
    (∀ fields : List String, ∀ m : AtcPositionUpdateMessage,
      atcPositionUpdateTryFrom fields = Outcome.ok m →
        m.elevation = (parseInt ((fields.get? 7).getD "0")).getD 0) ∧
    (∀ s : String,
      atcPositionUpdateTryFrom ["%EGPH_APP", "118.5", "5", "100", "4", "55.95", "-3.37", s] =
        Outcome.ok (atcPositionUpdateMessageNew "EGPH_APP" [RadioFrequency.mk 118 5]
          5 100 4 (mkRat 5595 100) (mkRat (-337) 100) ((parseInt s).getD 0))) ∧
    atcPositionUpdateTryFrom ["%EGPH_APP", "118.5", "5", "100", "4", "55.95", "-3.37", "abc"] =
      Outcome.ok (atcPositionUpdateMessageNew "EGPH_APP" [RadioFrequency.mk 118 5]
        5 100 4 (mkRat 5595 100) (mkRat (-337) 100) 0) ∧
    atcPositionUpdateTryFrom ["%EGPH_APP", "118.5", "5", "100", "4", "55.95", "-3.37"] =
      Outcome.ok (atcPositionUpdateMessageNew "EGPH_APP" [RadioFrequency.mk 118 5]
        5 100 4 (mkRat 5595 100) (mkRat (-337) 100) 0) ∧
    parseInt "abc" = none := by
  refine ⟨?_, fun s => rfl, by decide, by decide, by decide⟩
  intro fields m h
  unfold atcPositionUpdateTryFrom at h
  by_cases hlen : fields.length < 7
  · rw [if_pos hlen] at h
    exact absurd h (by simp)
  · rw [if_neg hlen] at h
    obtain ⟨f0, hf0, h⟩ := Outcome.bind_ok_elim h
    obtain ⟨f1, hf1, h⟩ := Outcome.bind_ok_elim h
    obtain ⟨f2, hf2, h⟩ := Outcome.bind_ok_elim h
    obtain ⟨atcType, hat, h⟩ := Outcome.bind_ok_elim h
    obtain ⟨f3, hf3, h⟩ := Outcome.bind_ok_elim h
    obtain ⟨vis, hvis, h⟩ := Outcome.bind_ok_elim h
    obtain ⟨f4, hf4, h⟩ := Outcome.bind_ok_elim h
    obtain ⟨rating, hrat, h⟩ := Outcome.bind_ok_elim h
    obtain ⟨f5, hf5, h⟩ := Outcome.bind_ok_elim h
    obtain ⟨lat, hlat, h⟩ := Outcome.bind_ok_elim h
    obtain ⟨f6, hf6, h⟩ := Outcome.bind_ok_elim h
    obtain ⟨lon, hlon, h⟩ := Outcome.bind_ok_elim h
    cases h
    rfl

/-- C6: for every pilot position update line that parses, the stored pressure
altitude equals the parsed true-altitude field (field 6) plus the parsed signed
altitude-difference field (field 9); formatting writes as its final field the
value pressure altitude minus true altitude truncated to an integer; and a
concrete formatted message parses back to itself exactly (its values carry no
quantization loss). -/
theorem c6_pressure_altitude_derivation :
    (∀ fields : List String, ∀ m : PilotPositionUpdateMessage,
      pilotPositionUpdateTryFrom fields = Outcome.ok m →
        ∃ s6 s9 ta diff, fields.get? 6 = some s6 ∧ parseRat s6 = some ta ∧
          fields.get? 9 = some s9 ∧ parseRat s9 = some diff ∧
          m.true_altitude = ta ∧ m.pressure_altitude = ta + diff) ∧
    (∀ m : PilotPositionUpdateMessage,
      pilotPositionUpdateDisplay m = pilotPositionUpdateDisplayHead m ++ ":" ++
        toString (ratTruncToInt (m.pressure_altitude - m.true_altitude))) ∧
    pilotPositionUpdateTryFrom
        ["@S", "N123", "1200", "1", "55.5", "-3.25", "3500", "120", "0", "-150"] =
      Outcome.ok (pilotPositionUpdateMessageNew "N123" TransponderMode.standby
        (TransponderCode.mk 1200) 1 (mkRat 111 2) (mkRat (-13) 4) 3500 3350 120
        0 0 0 false) ∧
    pilotPositionUpdateTryFrom (splitFields (pilotPositionUpdateDisplay
        (pilotPositionUpdateMessageNew "N123" TransponderMode.standby
          (TransponderCode.mk 1200) 1 (mkRat 111 2) (mkRat (-13) 4) 3500 3350 120
          0 0 0 false))) =
      Outcome.ok (pilotPositionUpdateMessageNew "N123" TransponderMode.standby
        (TransponderCode.mk 1200) 1 (mkRat 111 2) (mkRat (-13) 4) 3500 3350 120
        0 0 0 false) := by
  refine ⟨?_, ?_, by decide, by decide⟩
  · intro fields m h
    unfold pilotPositionUpdateTryFrom at h
    by_cases hlen : fields.length < 10
    · rw [if_pos hlen] at h
      exact absurd h (by simp)
    · rw [if_neg hlen] at h
      obtain ⟨f0, hf0, h⟩ := Outcome.bind_ok_elim h
      obtain ⟨f6, hf6, h⟩ := Outcome.bind_ok_elim h
      obtain ⟨ta, hta, h⟩ := Outcome.bind_ok_elim h
      obtain ⟨f9, hf9, h⟩ := Outcome.bind_ok_elim h
      obtain ⟨diff, hdiff, h⟩ := Outcome.bind_ok_elim h
      obtain ⟨f8, hf8, h⟩ := Outcome.bind_ok_elim h
      obtain ⟨pbh, hpbh, h⟩ := Outcome.bind_ok_elim h
      obtain ⟨f1, hf1, h⟩ := Outcome.bind_ok_elim h
      obtain ⟨mode, hmode, h⟩ := Outcome.bind_ok_elim h
      obtain ⟨f2, hf2, h⟩ := Outcome.bind_ok_elim h
      obtain ⟨code, hcode, h⟩ := Outcome.bind_ok_elim h
      obtain ⟨f3, hf3, h⟩ := Outcome.bind_ok_elim h
      obtain ⟨rating, hrat, h⟩ := Outcome.bind_ok_elim h
      obtain ⟨f4, hf4, h⟩ := Outcome.bind_ok_elim h
      obtain ⟨lat, hlat, h⟩ := Outcome.bind_ok_elim h
      obtain ⟨f5, hf5, h⟩ := Outcome.bind_ok_elim h
      obtain ⟨lon, hlon, h⟩ := Outcome.bind_ok_elim h
      obtain ⟨f7, hf7, h⟩ := Outcome.bind_ok_elim h
      obtain ⟨speed, hspeed, h⟩ := Outcome.bind_ok_elim h
      cases h
      exact ⟨f6, f9, ta, diff, index_ok hf6, parsed_ok hta, index_ok hf9,
        parsed_ok hdiff, rfl, qAdd_eq ta diff⟩
  · intro m
    show pilotPositionUpdateDisplayHead m ++ ":" ++
        toString (ratTruncToInt (qSub m.pressure_altitude m.true_altitude)) = _
    rw [qSub_eq]

/-- C6 witness: the derivation conjunct applied at a concrete successful parse. -/
theorem c6_pressure_altitude_derivation_witness :
    ∃ s6 s9 ta diff,
      (["@S", "N123", "1200", "1", "55.5", "-3.25", "3500", "120", "0", "-150"] :
        List String).get? 6 = some s6 ∧ parseRat s6 = some ta ∧
      (["@S", "N123", "1200", "1", "55.5", "-3.25", "3500", "120", "0", "-150"] :
        List String).get? 9 = some s9 ∧ parseRat s9 = some diff ∧
      (pilotPositionUpdateMessageNew "N123" TransponderMode.standby
        (TransponderCode.mk 1200) 1 (mkRat 111 2) (mkRat (-13) 4) 3500 3350 120
        0 0 0 false).true_altitude = ta ∧
      (pilotPositionUpdateMessageNew "N123" TransponderMode.standby
        (TransponderCode.mk 1200) 1 (mkRat 111 2) (mkRat (-13) 4) 3500 3350 120
        0 0 0 false).pressure_altitude = ta + diff :=
  c6_pressure_altitude_derivation.1
    ["@S", "N123", "1200", "1", "55.5", "-3.25", "3500", "120", "0", "-150"]
    (pilotPositionUpdateMessageNew "N123" TransponderMode.standby
      (TransponderCode.mk 1200) 1 (mkRat 111 2) (mkRat (-13) 4) 3500 3350 120
      0 0 0 false) (by decide)

/-- C5 witness: the elevation conjunct applied at a concrete successful parse
with an unparsable trailing elevation field. -/
theorem c5_atc_elevation_lenient_default_witness :
    (atcPositionUpdateMessageNew "EGPH_APP" [RadioFrequency.mk 118 5]
        5 100 4 (mkRat 5595 100) (mkRat (-337) 100) 0).elevation =
      (parseInt (((["%EGPH_APP", "118.5", "5", "100", "4", "55.95", "-3.37", "abc"] :
        List String).get? 7).getD "0")).getD 0 :=
  c5_atc_elevation_lenient_default.1
    ["%EGPH_APP", "118.5", "5", "100", "4", "55.95", "-3.37", "abc"]
    (atcPositionUpdateMessageNew "EGPH_APP" [RadioFrequency.mk 118 5]
      5 100 4 (mkRat 5595 100) (mkRat (-337) 100) 0) (by decide)


/-- Splitting a line that starts with a bare colon yields a leading empty field. -/
theorem splitFields_colon_cons (c : String) : splitFields (":" ++ c) = "" :: splitFields c :=
  splitFields_cons "" c (by decide)

/-- Splitting a server-error line into its first two fields. -/
theorem splitFields_errLine (f t c : String) (hf : colonFree f) (ht : colonFree t) :
    splitFields ("$ER" ++ f ++ ":" ++ t ++ ":" ++ c) =
      ("$ER" ++ f) :: t :: splitFields c := by
  have h1 : colonFree ("$ER" ++ f) := colonFree_append (by decide) hf
  have e : "$ER" ++ f ++ ":" ++ t ++ ":" ++ c = "$ER" ++ f ++ ":" ++ (t ++ ":" ++ c) := by
    simp only [String.append_assoc]
  rw [e, splitFields_cons _ _ h1, splitFields_cons _ _ ht]

/-- C3 counterexample: formatting an error message whose kind carries the
offending callsign N123 writes empty fields (the Display impl never renders the
payload), so parsing the formatted line back yields the same kind carrying the
empty string — a different message. Format-then-parse is not the identity for
these kinds, refuting the round-trip claim. -/
theorem c3_format_drops_error_payload :
    fsdErrorTryFrom (splitFields (fsdErrorDisplay
        (fsdErrorMessageNew "A" "B" (FsdError.noSuchCallsign "N123")))) =
      Outcome.ok (fsdErrorMessageNew "A" "B" (FsdError.noSuchCallsign "")) ∧
    fsdErrorMessageNew "A" "B" (FsdError.noSuchCallsign "") ≠
      fsdErrorMessageNew "A" "B" (FsdError.noSuchCallsign "N123") := by
  decide

/-- C3 (amended): format-then-parse restores an FsdErrorMessage exactly when its
stored identifiers are canonical (upper-case, colon-free) and its error kind
carries no payload the formatter would drop: kinds with a carried
callsign/flight-plan/weather-station string round-trip only when that string is
empty, and the Other kind round-trips when its free-text message is colon-free.
For a non-empty carried payload the formatter writes an empty field and the
payload comes back as the empty string. -/
theorem c3_fsd_error_roundtrip_up_to_payload (m : FsdErrorMessage)
    (hf : colonFree m.«from») (ht : colonFree m.«to»)
    (hfu : strToUpper m.«from» = m.«from») (htu : strToUpper m.«to» = m.«to»)
    (hp : fsdErrorPayloadBlank m.error_type) :
    fsdErrorTryFrom (splitFields (fsdErrorDisplay m)) = Outcome.ok m := by
  obtain ⟨f, t, e⟩ := m
  simp only at hf ht hfu htu hp
  cases e with
  | callsignInUse =>
      rw [show fsdErrorDisplay ⟨f, t, FsdError.callsignInUse⟩ =
          "$ER" ++ f ++ ":" ++ t ++ ":" ++ pad3 (FsdError.error_number (FsdError.callsignInUse)) ++ "::" from rfl]
      rw [show pad3 (FsdError.error_number (FsdError.callsignInUse)) = "001" from rfl]
      rw [show ("$ER" ++ f ++ ":" ++ t ++ ":" ++ "001" ++ "::" : String) =
          "$ER" ++ f ++ ":" ++ t ++ ":" ++ ("001" ++ "::") from by
        simp only [String.append_assoc]]
      rw [splitFields_errLine f t _ hf ht,
        show splitFields ("001" ++ "::") = ["001", "", ""] from by decide]
      show Outcome.ok (fsdErrorMessageNew f t (FsdError.callsignInUse)) =
        Outcome.ok (⟨f, t, FsdError.callsignInUse⟩ : FsdErrorMessage)
      unfold fsdErrorMessageNew
      rw [hfu, htu]
  | invalidCallsign =>
      rw [show fsdErrorDisplay ⟨f, t, FsdError.invalidCallsign⟩ =
          "$ER" ++ f ++ ":" ++ t ++ ":" ++ pad3 (FsdError.error_number (FsdError.invalidCallsign)) ++ "::" from rfl]
      rw [show pad3 (FsdError.error_number (FsdError.invalidCallsign)) = "002" from rfl]
      rw [show ("$ER" ++ f ++ ":" ++ t ++ ":" ++ "002" ++ "::" : String) =
          "$ER" ++ f ++ ":" ++ t ++ ":" ++ ("002" ++ "::") from by
        simp only [String.append_assoc]]
      rw [splitFields_errLine f t _ hf ht,
        show splitFields ("002" ++ "::") = ["002", "", ""] from by decide]
      show Outcome.ok (fsdErrorMessageNew f t (FsdError.invalidCallsign)) =
        Outcome.ok (⟨f, t, FsdError.invalidCallsign⟩ : FsdErrorMessage)
      unfold fsdErrorMessageNew
      rw [hfu, htu]
  | alreadyRegistered =>
      rw [show fsdErrorDisplay ⟨f, t, FsdError.alreadyRegistered⟩ =
          "$ER" ++ f ++ ":" ++ t ++ ":" ++ pad3 (FsdError.error_number (FsdError.alreadyRegistered)) ++ "::" from rfl]
      rw [show pad3 (FsdError.error_number (FsdError.alreadyRegistered)) = "003" from rfl]
      rw [show ("$ER" ++ f ++ ":" ++ t ++ ":" ++ "003" ++ "::" : String) =
          "$ER" ++ f ++ ":" ++ t ++ ":" ++ ("003" ++ "::") from by
        simp only [String.append_assoc]]
      rw [splitFields_errLine f t _ hf ht,
        show splitFields ("003" ++ "::") = ["003", "", ""] from by decide]
      show Outcome.ok (fsdErrorMessageNew f t (FsdError.alreadyRegistered)) =
        Outcome.ok (⟨f, t, FsdError.alreadyRegistered⟩ : FsdErrorMessage)
      unfold fsdErrorMessageNew
      rw [hfu, htu]
  | syntaxError =>
      rw [show fsdErrorDisplay ⟨f, t, FsdError.syntaxError⟩ =
          "$ER" ++ f ++ ":" ++ t ++ ":" ++ pad3 (FsdError.error_number (FsdError.syntaxError)) ++ "::" from rfl]
      rw [show pad3 (FsdError.error_number (FsdError.syntaxError)) = "004" from rfl]
      rw [show ("$ER" ++ f ++ ":" ++ t ++ ":" ++ "004" ++ "::" : String) =
          "$ER" ++ f ++ ":" ++ t ++ ":" ++ ("004" ++ "::") from by
        simp only [String.append_assoc]]
      rw [splitFields_errLine f t _ hf ht,
        show splitFields ("004" ++ "::") = ["004", "", ""] from by decide]
      show Outcome.ok (fsdErrorMessageNew f t (FsdError.syntaxError)) =
        Outcome.ok (⟨f, t, FsdError.syntaxError⟩ : FsdErrorMessage)
      unfold fsdErrorMessageNew
      rw [hfu, htu]
  | invalidCidPassword =>
      rw [show fsdErrorDisplay ⟨f, t, FsdError.invalidCidPassword⟩ =
          "$ER" ++ f ++ ":" ++ t ++ ":" ++ pad3 (FsdError.error_number (FsdError.invalidCidPassword)) ++ "::" from rfl]
      rw [show pad3 (FsdError.error_number (FsdError.invalidCidPassword)) = "006" from rfl]
      rw [show ("$ER" ++ f ++ ":" ++ t ++ ":" ++ "006" ++ "::" : String) =
          "$ER" ++ f ++ ":" ++ t ++ ":" ++ ("006" ++ "::") from by
        simp only [String.append_assoc]]
      rw [splitFields_errLine f t _ hf ht,
        show splitFields ("006" ++ "::") = ["006", "", ""] from by decide]
      show Outcome.ok (fsdErrorMessageNew f t (FsdError.invalidCidPassword)) =
        Outcome.ok (⟨f, t, FsdError.invalidCidPassword⟩ : FsdErrorMessage)
      unfold fsdErrorMessageNew
      rw [hfu, htu]
  | noSuchCallsign s =>
      simp only [fsdErrorPayloadBlank] at hp
      subst hp
      rw [show fsdErrorDisplay ⟨f, t, FsdError.noSuchCallsign ""⟩ =
          "$ER" ++ f ++ ":" ++ t ++ ":" ++ pad3 (FsdError.error_number (FsdError.noSuchCallsign "")) ++ "::" from rfl]
      rw [show pad3 (FsdError.error_number (FsdError.noSuchCallsign "")) = "007" from rfl]
      rw [show ("$ER" ++ f ++ ":" ++ t ++ ":" ++ "007" ++ "::" : String) =
          "$ER" ++ f ++ ":" ++ t ++ ":" ++ ("007" ++ "::") from by
        simp only [String.append_assoc]]
      rw [splitFields_errLine f t _ hf ht,
        show splitFields ("007" ++ "::") = ["007", "", ""] from by decide]
      show Outcome.ok (fsdErrorMessageNew f t (FsdError.noSuchCallsign "")) =
        Outcome.ok (⟨f, t, FsdError.noSuchCallsign ""⟩ : FsdErrorMessage)
      unfold fsdErrorMessageNew
      rw [hfu, htu]
  | noFlightPlan s =>
      simp only [fsdErrorPayloadBlank] at hp
      subst hp
      rw [show fsdErrorDisplay ⟨f, t, FsdError.noFlightPlan ""⟩ =
          "$ER" ++ f ++ ":" ++ t ++ ":" ++ pad3 (FsdError.error_number (FsdError.noFlightPlan "")) ++ "::" from rfl]
      rw [show pad3 (FsdError.error_number (FsdError.noFlightPlan "")) = "008" from rfl]
      rw [show ("$ER" ++ f ++ ":" ++ t ++ ":" ++ "008" ++ "::" : String) =
          "$ER" ++ f ++ ":" ++ t ++ ":" ++ ("008" ++ "::") from by
        simp only [String.append_assoc]]
      rw [splitFields_errLine f t _ hf ht,
        show splitFields ("008" ++ "::") = ["008", "", ""] from by decide]
      show Outcome.ok (fsdErrorMessageNew f t (FsdError.noFlightPlan "")) =
        Outcome.ok (⟨f, t, FsdError.noFlightPlan ""⟩ : FsdErrorMessage)
      unfold fsdErrorMessageNew
      rw [hfu, htu]
  | noWeatherProfile s =>
      simp only [fsdErrorPayloadBlank] at hp
      subst hp
      rw [show fsdErrorDisplay ⟨f, t, FsdError.noWeatherProfile ""⟩ =
          "$ER" ++ f ++ ":" ++ t ++ ":" ++ pad3 (FsdError.error_number (FsdError.noWeatherProfile "")) ++ "::" from rfl]
      rw [show pad3 (FsdError.error_number (FsdError.noWeatherProfile "")) = "009" from rfl]
      rw [show ("$ER" ++ f ++ ":" ++ t ++ ":" ++ "009" ++ "::" : String) =
          "$ER" ++ f ++ ":" ++ t ++ ":" ++ ("009" ++ "::") from by
        simp only [String.append_assoc]]
      rw [splitFields_errLine f t _ hf ht,
        show splitFields ("009" ++ "::") = ["009", "", ""] from by decide]
      show Outcome.ok (fsdErrorMessageNew f t (FsdError.noWeatherProfile "")) =
        Outcome.ok (⟨f, t, FsdError.noWeatherProfile ""⟩ : FsdErrorMessage)
      unfold fsdErrorMessageNew
      rw [hfu, htu]
  | invalidProtocolRevision =>
      rw [show fsdErrorDisplay ⟨f, t, FsdError.invalidProtocolRevision⟩ =
          "$ER" ++ f ++ ":" ++ t ++ ":" ++ pad3 (FsdError.error_number (FsdError.invalidProtocolRevision)) ++ "::" from rfl]
      rw [show pad3 (FsdError.error_number (FsdError.invalidProtocolRevision)) = "010" from rfl]
      rw [show ("$ER" ++ f ++ ":" ++ t ++ ":" ++ "010" ++ "::" : String) =
          "$ER" ++ f ++ ":" ++ t ++ ":" ++ ("010" ++ "::") from by
        simp only [String.append_assoc]]
      rw [splitFields_errLine f t _ hf ht,
        show splitFields ("010" ++ "::") = ["010", "", ""] from by decide]
      show Outcome.ok (fsdErrorMessageNew f t (FsdError.invalidProtocolRevision)) =
        Outcome.ok (⟨f, t, FsdError.invalidProtocolRevision⟩ : FsdErrorMessage)
      unfold fsdErrorMessageNew
      rw [hfu, htu]
  | requestedLevelTooHigh =>
      rw [show fsdErrorDisplay ⟨f, t, FsdError.requestedLevelTooHigh⟩ =
          "$ER" ++ f ++ ":" ++ t ++ ":" ++ pad3 (FsdError.error_number (FsdError.requestedLevelTooHigh)) ++ "::" from rfl]
      rw [show pad3 (FsdError.error_number (FsdError.requestedLevelTooHigh)) = "011" from rfl]
      rw [show ("$ER" ++ f ++ ":" ++ t ++ ":" ++ "011" ++ "::" : String) =
          "$ER" ++ f ++ ":" ++ t ++ ":" ++ ("011" ++ "::") from by
        simp only [String.append_assoc]]
      rw [splitFields_errLine f t _ hf ht,
        show splitFields ("011" ++ "::") = ["011", "", ""] from by decide]
      show Outcome.ok (fsdErrorMessageNew f t (FsdError.requestedLevelTooHigh)) =
        Outcome.ok (⟨f, t, FsdError.requestedLevelTooHigh⟩ : FsdErrorMessage)
      unfold fsdErrorMessageNew
      rw [hfu, htu]
  | serverFull =>
      rw [show fsdErrorDisplay ⟨f, t, FsdError.serverFull⟩ =
          "$ER" ++ f ++ ":" ++ t ++ ":" ++ pad3 (FsdError.error_number (FsdError.serverFull)) ++ "::" from rfl]
      rw [show pad3 (FsdError.error_number (FsdError.serverFull)) = "012" from rfl]
      rw [show ("$ER" ++ f ++ ":" ++ t ++ ":" ++ "012" ++ "::" : String) =
          "$ER" ++ f ++ ":" ++ t ++ ":" ++ ("012" ++ "::") from by
        simp only [String.append_assoc]]
      rw [splitFields_errLine f t _ hf ht,
        show splitFields ("012" ++ "::") = ["012", "", ""] from by decide]
      show Outcome.ok (fsdErrorMessageNew f t (FsdError.serverFull)) =
        Outcome.ok (⟨f, t, FsdError.serverFull⟩ : FsdErrorMessage)
      unfold fsdErrorMessageNew
      rw [hfu, htu]
  | certificateSuspended =>
      rw [show fsdErrorDisplay ⟨f, t, FsdError.certificateSuspended⟩ =
          "$ER" ++ f ++ ":" ++ t ++ ":" ++ pad3 (FsdError.error_number (FsdError.certificateSuspended)) ++ "::" from rfl]
      rw [show pad3 (FsdError.error_number (FsdError.certificateSuspended)) = "013" from rfl]
      rw [show ("$ER" ++ f ++ ":" ++ t ++ ":" ++ "013" ++ "::" : String) =
          "$ER" ++ f ++ ":" ++ t ++ ":" ++ ("013" ++ "::") from by
        simp only [String.append_assoc]]
      rw [splitFields_errLine f t _ hf ht,
        show splitFields ("013" ++ "::") = ["013", "", ""] from by decide]
      show Outcome.ok (fsdErrorMessageNew f t (FsdError.certificateSuspended)) =
        Outcome.ok (⟨f, t, FsdError.certificateSuspended⟩ : FsdErrorMessage)
      unfold fsdErrorMessageNew
      rw [hfu, htu]
  | invalidControl =>
      rw [show fsdErrorDisplay ⟨f, t, FsdError.invalidControl⟩ =
          "$ER" ++ f ++ ":" ++ t ++ ":" ++ pad3 (FsdError.error_number (FsdError.invalidControl)) ++ "::" from rfl]
      rw [show pad3 (FsdError.error_number (FsdError.invalidControl)) = "014" from rfl]
      rw [show ("$ER" ++ f ++ ":" ++ t ++ ":" ++ "014" ++ "::" : String) =
          "$ER" ++ f ++ ":" ++ t ++ ":" ++ ("014" ++ "::") from by
        simp only [String.append_assoc]]
      rw [splitFields_errLine f t _ hf ht,
        show splitFields ("014" ++ "::") = ["014", "", ""] from by decide]
      show Outcome.ok (fsdErrorMessageNew f t (FsdError.invalidControl)) =
        Outcome.ok (⟨f, t, FsdError.invalidControl⟩ : FsdErrorMessage)
      unfold fsdErrorMessageNew
      rw [hfu, htu]
  | invalidPositionForRating =>
      rw [show fsdErrorDisplay ⟨f, t, FsdError.invalidPositionForRating⟩ =
          "$ER" ++ f ++ ":" ++ t ++ ":" ++ pad3 (FsdError.error_number (FsdError.invalidPositionForRating)) ++ "::" from rfl]
      rw [show pad3 (FsdError.error_number (FsdError.invalidPositionForRating)) = "015" from rfl]
      rw [show ("$ER" ++ f ++ ":" ++ t ++ ":" ++ "015" ++ "::" : String) =
          "$ER" ++ f ++ ":" ++ t ++ ":" ++ ("015" ++ "::") from by
        simp only [String.append_assoc]]
      rw [splitFields_errLine f t _ hf ht,
        show splitFields ("015" ++ "::") = ["015", "", ""] from by decide]
      show Outcome.ok (fsdErrorMessageNew f t (FsdError.invalidPositionForRating)) =
        Outcome.ok (⟨f, t, FsdError.invalidPositionForRating⟩ : FsdErrorMessage)
      unfold fsdErrorMessageNew
      rw [hfu, htu]
  | unauthorisedClient =>
      rw [show fsdErrorDisplay ⟨f, t, FsdError.unauthorisedClient⟩ =
          "$ER" ++ f ++ ":" ++ t ++ ":" ++ pad3 (FsdError.error_number (FsdError.unauthorisedClient)) ++ "::" from rfl]
      rw [show pad3 (FsdError.error_number (FsdError.unauthorisedClient)) = "016" from rfl]
      rw [show ("$ER" ++ f ++ ":" ++ t ++ ":" ++ "016" ++ "::" : String) =
          "$ER" ++ f ++ ":" ++ t ++ ":" ++ ("016" ++ "::") from by
        simp only [String.append_assoc]]
      rw [splitFields_errLine f t _ hf ht,
        show splitFields ("016" ++ "::") = ["016", "", ""] from by decide]
      show Outcome.ok (fsdErrorMessageNew f t (FsdError.unauthorisedClient)) =
        Outcome.ok (⟨f, t, FsdError.unauthorisedClient⟩ : FsdErrorMessage)
      unfold fsdErrorMessageNew
      rw [hfu, htu]
  | authTimeOut =>
      rw [show fsdErrorDisplay ⟨f, t, FsdError.authTimeOut⟩ =
          "$ER" ++ f ++ ":" ++ t ++ ":" ++ pad3 (FsdError.error_number (FsdError.authTimeOut)) ++ "::" from rfl]
      rw [show pad3 (FsdError.error_number (FsdError.authTimeOut)) = "017" from rfl]
      rw [show ("$ER" ++ f ++ ":" ++ t ++ ":" ++ "017" ++ "::" : String) =
          "$ER" ++ f ++ ":" ++ t ++ ":" ++ ("017" ++ "::") from by
        simp only [String.append_assoc]]
      rw [splitFields_errLine f t _ hf ht,
        show splitFields ("017" ++ "::") = ["017", "", ""] from by decide]
      show Outcome.ok (fsdErrorMessageNew f t (FsdError.authTimeOut)) =
        Outcome.ok (⟨f, t, FsdError.authTimeOut⟩ : FsdErrorMessage)
      unfold fsdErrorMessageNew
      rw [hfu, htu]
  | other msg =>
      simp only [fsdErrorPayloadBlank] at hp
      rw [show fsdErrorDisplay ⟨f, t, FsdError.other msg⟩ =
          "$ER" ++ f ++ ":" ++ t ++ ":" ++ pad3 (FsdError.error_number (FsdError.other msg)) ++
            "::" ++ msg from rfl]
      rw [show pad3 (FsdError.error_number (FsdError.other msg)) = "000" from by
        show pad3 0 = "000"
        rfl]
      rw [show ("$ER" ++ f ++ ":" ++ t ++ ":" ++ "000" ++ "::" ++ msg : String) =
          "$ER" ++ f ++ ":" ++ t ++ ":" ++ ("000" ++ ":" ++ (":" ++ msg)) from by
        simp only [String.append_assoc]
        rfl]
      rw [splitFields_errLine f t _ hf ht, splitFields_cons "000" _ (by decide),
        splitFields_colon_cons, splitFields_single msg hp]
      show Outcome.ok (fsdErrorMessageNew f t (FsdError.other msg)) =
        Outcome.ok (⟨f, t, FsdError.other msg⟩ : FsdErrorMessage)
      unfold fsdErrorMessageNew
      rw [hfu, htu]

/-- C3 witness: the amended round-trip theorem applied at a concrete
payload-free error message. -/
theorem c3_fsd_error_roundtrip_witness :
    fsdErrorTryFrom (splitFields (fsdErrorDisplay
        (FsdErrorMessage.mk "EGPH_APP" "SERVER" FsdError.serverFull))) =
      Outcome.ok (FsdErrorMessage.mk "EGPH_APP" "SERVER" FsdError.serverFull) :=
  c3_fsd_error_roundtrip_up_to_payload
    (FsdErrorMessage.mk "EGPH_APP" "SERVER" FsdError.serverFull)
    (by decide) (by decide) (by decide) (by decide) (by decide)

/-- C8 witness: the tail-rejoin conjunct applied at a concrete 4-field input. -/
theorem c8_text_message_tail_rejoined_witness :
    textMessageTryFrom ["#TMA", "B", "Hello", "World"] =
      Outcome.ok (textMessageNew (strDrop 3 "#TMA") "B"
        (joinColons ["Hello", "World"])) :=
  c8_text_message_tail_rejoined.2 "#TMA" "B" "Hello" ["World"]

/-- C10 witness: the request conjunct applied at a concrete input carrying the
usual METAR literal. -/
theorem c10_metar_parse_ignores_literal_token_witness :
    metarRequestTryFrom ["$AXA", "B", "METAR", "egll"] =
      Outcome.ok (metarRequestMessageNew (strDrop 3 "$AXA") "B" "egll") :=
  c10_metar_parse_ignores_literal_token.1 "$AXA" "B" "METAR" "egll" []

end FsdInterface
